import Mathlib

/-!
Verification of the Image-to-React repository's LLM-output normalization
pipeline and its preview adapters, as described in the repository spec.

Program text is modelled shallowly as `List Char`.  The JavaScript string
methods (`includes`, `trim`, `replace`, ...) and the regular expressions the
source uses are embedded as executable Lean functions with JS semantics
(leftmost match, greedy/lazy quantifiers with backtracking, `g`/`m`/`i`
flags).  Asynchronous external calls (the LLM endpoint, the sandbox
bundler) are modelled as oracle function parameters.
-/

namespace Img2React

/-- Program text: a JS string modelled as its list of UTF-16-ish code points
(Lean `Char` = Unicode scalar values; the sources only manipulate scalar
text, so this is faithful). -/
abbrev Str := List Char

/-- Literal text. -/
def lit (s : String) : Str := s.data

/-- The backtick character (code 96), written via its code point. -/
def btChar : Char := Char.ofNat 96

/-- A triple-backtick fence marker. -/
def tick3 : Str := [btChar, btChar, btChar]

/-- JS `\s` / `String.prototype.trim` whitespace class (WhiteSpace plus
LineTerminator). -/
def isJsWs (c : Char) : Bool :=
  c = ' ' || c = '\t' || c = '\n' || c = '\x0b' || c = '\x0c' || c = '\r' ||
  c.toNat = 0xa0 || c.toNat = 0x1680 ||
  (0x2000 ≤ c.toNat && c.toNat ≤ 0x200a) ||
  c.toNat = 0x2028 || c.toNat = 0x2029 || c.toNat = 0x202f ||
  c.toNat = 0x205f || c.toNat = 0x3000 || c.toNat = 0xfeff

/-- JS `\w`: ASCII letters, digits and underscore. -/
def isWordChar (c : Char) : Bool :=
  ('a' ≤ c && c ≤ 'z') || ('A' ≤ c && c ≤ 'Z') || ('0' ≤ c && c ≤ '9') || c = '_'

/-- ASCII letter (for the JSX tag check `[a-zA-Z]`). -/
def isAsciiLetter (c : Char) : Bool :=
  ('a' ≤ c && c ≤ 'z') || ('A' ≤ c && c ≤ 'Z')

/-- ASCII letter or digit (for the JSX heuristic `[a-zA-Z0-9]`). -/
def isAsciiAlnum (c : Char) : Bool :=
  isAsciiLetter c || ('0' ≤ c && c ≤ '9')

/-- JS `String.prototype.includes` (substring test). -/
def includesB (pat : Str) : Str → Bool
  | [] => pat.isEmpty
  | c :: rest => pat.isPrefixOf (c :: rest) || includesB pat rest

/-- Number of positions at which `pat` occurs in `s` (used to state the
"exactly one export statement" properties). -/
def countOccur (pat s : Str) : Nat :=
  (s.tails.filter (fun t => pat.isPrefixOf t)).length

/-- JS `trimStart`. -/
def trimStart (s : Str) : Str := s.dropWhile isJsWs

/-- JS `trimEnd`. -/
def trimEnd (s : Str) : Str := (s.reverse.dropWhile isJsWs).reverse

/-- JS `String.prototype.trim`. -/
def trimJs (s : Str) : Str := trimEnd (trimStart s)

/-- ASCII case folding, for the `i` regex flag (the embedded patterns are
all ASCII). -/
def foldCase (c : Char) : Char :=
  if 'A' ≤ c && c ≤ 'Z' then Char.ofNat (c.toNat + 32) else c

/-- Case-insensitive prefix test. -/
def isPrefixOfCI : Str → Str → Bool
  | [], _ => true
  | _ :: _, [] => false
  | p :: ps, c :: cs => (foldCase p = foldCase c) && isPrefixOfCI ps cs

/-- JS `String.prototype.replace` with a plain string pattern: replaces the
first occurrence only. -/
def replaceFirstLit (pat repl : Str) : Str → Str
  | [] => []
  | c :: rest =>
    if pat.isPrefixOf (c :: rest) then repl ++ (c :: rest).drop pat.length
    else c :: replaceFirstLit pat repl rest

/-!
## A small backtracking regex engine

Each regular expression of the source is embedded as a sequence of `RxPiece`s
(one alternative per top-level branch).  `pieceOpts` returns the possible
remaining suffixes after consuming one piece, in the priority order the JS
engine explores them (greedy quantifiers longest-first, lazy shortest-first,
alternation in written order), so the head of the backtracking search is
exactly the JS match.
-/

inductive RxPiece where
  | lit (p : Str)
  | litCI (p : Str)
  | cls1 (f : Char → Bool)
  | starG (f : Char → Bool)
  | plusG (f : Char → Bool)
  | starL (f : Char → Bool)
  | optLit (p : Str)
  | altLit (ps : List Str)
  | altOpt (ps : List Str)
  | altOptCI (ps : List Str)
  | lineEnd
  | strEnd
  | lookNext (f : Char → Bool)
  | lookLitCI (p : Str)

/-- Suffixes reachable by one piece, in backtracking priority order. -/
def pieceOpts : RxPiece → Str → List Str
  | .lit p, t => if p.isPrefixOf t then [t.drop p.length] else []
  | .litCI p, t => if isPrefixOfCI p t then [t.drop p.length] else []
  | .cls1 f, t =>
    match t with
    | [] => []
    | c :: rest => if f c then [rest] else []
  | .starG f, t =>
    let n := (t.takeWhile f).length
    (List.range (n + 1)).reverse.map (fun k => t.drop k)
  | .plusG f, t =>
    let n := (t.takeWhile f).length
    ((List.range n).reverse.map (fun k => t.drop (k + 1)))
  | .starL f, t =>
    let n := (t.takeWhile f).length
    (List.range (n + 1)).map (fun k => t.drop k)
  | .optLit p, t => if p.isPrefixOf t then [t.drop p.length, t] else [t]
  | .altLit ps, t =>
    (ps.filter (fun p => p.isPrefixOf t)).map (fun p => t.drop p.length)
  | .altOpt ps, t =>
    ((ps.filter (fun p => p.isPrefixOf t)).map (fun p => t.drop p.length)) ++ [t]
  | .altOptCI ps, t =>
    ((ps.filter (fun p => isPrefixOfCI p t)).map (fun p => t.drop p.length)) ++ [t]
  | .lineEnd, t =>
    match t with
    | [] => [t]
    | c :: _ => if c = '\n' then [t] else []
  | .strEnd, t => match t with | [] => [t] | _ :: _ => []
  | .lookNext f, t =>
    match t with
    | [] => []
    | c :: _ => if f c then [t] else []
  | .lookLitCI p, t => if isPrefixOfCI p t then [t] else []

/-- First successful way to match a sequence of pieces at the head of `t`;
returns the remaining suffix. -/
def matchSeq : List RxPiece → Str → Option Str
  | [], t => some t
  | p :: ps, t => (pieceOpts p t).findSome? (fun t' => matchSeq ps t')

/-- An embedded regular expression: alternatives (in written order) plus the
flags that affect scanning. -/
structure Rx where
  alts : List (List RxPiece)
  anchored : Bool := false
  multiline : Bool := false
  leftWord : Bool := false

/-- Length of the match at the head of `t`, if any. -/
def rxMatchLen (rx : Rx) (t : Str) : Option Nat :=
  rx.alts.findSome? (fun ps => (matchSeq ps t).map (fun r => t.length - r.length))

/-- May a match start at a position whose previous character is `prev`?
(`none` = start of string.)  Encodes `^` (with and without `m`) and a
leading `\b`. -/
def posOK (rx : Rx) (prev : Option Char) : Bool :=
  (if rx.anchored then
    match prev with
    | none => true
    | some c => rx.multiline && c = '\n'
   else true) &&
  (if rx.leftWord then
    match prev with
    | none => true
    | some c => !isWordChar c
   else true)

/-- Scanner for `replace`: walks the string left to right; at each valid
position tries the regex, emits the replacement on a (non-empty) match and
continues after it (or stops scanning when the regex has no `g` flag).
Zero-length matches are skipped, which for the removal/insertion patterns
embedded here coincides with JS's advance-by-one rule because replacing an
empty match by the replacements used below is a no-op or unreachable.
The fuel argument only serves structural recursion; `fuel = length + 1`
always suffices because every step consumes at least one character. -/
def rxReplAux (rx : Rx) (repl : Str) (global : Bool) :
    Nat → Option Char → Str → Str
  | 0, _, t => t
  | fuel + 1, prev, t =>
    match t with
    | [] => []
    | c :: rest =>
      if posOK rx prev then
        match rxMatchLen rx t with
        | some (k + 1) =>
          let tail := t.drop (k + 1)
          if global then
            repl ++ rxReplAux rx repl global fuel ((t.take (k + 1)).getLast?) tail
          else repl ++ tail
        | _ => c :: rxReplAux rx repl global fuel (some c) rest
      else c :: rxReplAux rx repl global fuel (some c) rest

/-- JS `String.prototype.replace` with a regex pattern and a plain
replacement string. -/
def rxRepl (rx : Rx) (repl : Str) (global : Bool) (s : Str) : Str :=
  rxReplAux rx repl global (s.length + 1) none s

/-- JS `RegExp.prototype.test`: does a match start anywhere? -/
def rxTestAux (rx : Rx) : Nat → Option Char → Str → Bool
  | 0, _, _ => false
  | fuel + 1, prev, t =>
    (posOK rx prev && (rxMatchLen rx t).isSome) ||
    match t with
    | [] => false
    | c :: rest => rxTestAux rx fuel (some c) rest

def rxTest (rx : Rx) (s : Str) : Bool :=
  rxTestAux rx (s.length + 1) none s

/-- Regex made of a single literal (used for `String.replace(/lit/g, ...)`). -/
def litRx (p : Str) : Rx := { alts := [[.lit p]] }

/-- JS `replace` with a global literal-only regex. -/
def replaceAllLit (pat repl s : Str) : Str := rxRepl (litRx pat) repl true s

/-- The opening and closing curly braces, via their code points. -/
def lbrace : Char := Char.ofNat 123

def rbrace : Char := Char.ofNat 125

/-- JS `String.prototype.split` on a single-character separator. -/
def splitOnCharAux (sep : Char) : Str → Str → List Str
  | [], acc => [acc.reverse]
  | c :: rest, acc =>
    if c = sep then acc.reverse :: splitOnCharAux sep rest []
    else splitOnCharAux sep rest (c :: acc)

def splitOnChar (sep : Char) (s : Str) : List Str := splitOnCharAux sep s []

/-- `Array.prototype.join` with a separator. -/
def joinSep (sep : Str) : List Str → Str
  | [] => []
  | [x] => x
  | x :: xs => x ++ sep ++ joinSep sep xs

/-- JS `Set.prototype.add`: insertion-ordered, deduplicating. -/
def setInsert (x : Str) (l : List Str) : List Str := if x ∈ l then l else l ++ [x]

/-- Lexicographic comparison by code point — the default JS `Array.sort`
string order (the names sorted in the sources are ASCII, where code-point
and UTF-16 orders agree). -/
def strLtB : Str → Str → Bool
  | [], [] => false
  | [], _ :: _ => true
  | _ :: _, [] => false
  | a :: as, b :: bs => if a = b then strLtB as bs else decide (a.toNat < b.toNat)

def insertSorted (x : Str) : List Str → List Str
  | [] => [x]
  | y :: ys => if strLtB x y then x :: y :: ys else y :: insertSorted x ys

/-- JS `Array.from(set).sort()`. -/
def sortStrs (l : List Str) : List Str := l.foldr insertSorted []

def hexDigitL (n : Nat) : Char :=
  if n < 10 then Char.ofNat (48 + n) else Char.ofNat (87 + n)

/-- One character of `JSON.stringify` output. -/
def jsonEscapeChar (c : Char) : Str :=
  if c = '"' then lit "\\\""
  else if c = '\\' then lit "\\\\"
  else if c = '\n' then lit "\\n"
  else if c = '\r' then lit "\\r"
  else if c = '\t' then lit "\\t"
  else if c = '\x08' then lit "\\b"
  else if c = '\x0c' then lit "\\f"
  else if c.toNat < 0x20 then
    lit "\\u00" ++ [hexDigitL (c.toNat / 16), hexDigitL (c.toNat % 16)]
  else [c]

/-- `JSON.stringify` of a string value. -/
def jsonStringify (s : Str) : Str := '"' :: (s.flatMap jsonEscapeChar ++ ['"'])

/-!
## The import-statement regex of `LivePreview.tsx`

`/import\s*(?:(\w+)\s*,?\s*)*(?:{\s*([^}]*)\s*})?\s*from\s*['"]([^'"]+)['"]*;?/g`

`fixImportStatements` both `exec`s this regex in a loop (collecting the
captures) and removes its matches with `replace`.  The matcher below follows
the JS engine: the default-import repetition is tried with the maximal
number of iterations first, the optional brace group greedily, and all the
`\s*`/`[^...]`-style quantifiers take their maximal munch (each is followed
by a disjoint literal, so no deeper backtracking can change a match).
Backtracking *inside* one repetition iteration is not modelled; on
well-formed import statements it never fires. -/

structure ImportMatch where
  full : Str
  defaultImp : Option Str
  named : Option Str
  modulePath : Str

def isQuoteCh (c : Char) : Bool := c = '\'' || c = '"'

/-- States after 0, 1, 2, ... iterations of `(?:(\w+)\s*,?\s*)*`:
the capture of the last iteration and the remaining suffix. -/
def impIters : Nat → Option Str → Str → List (Option Str × Str)
  | 0, lastW, t => [(lastW, t)]
  | fuel + 1, lastW, t =>
    (lastW, t) ::
    (let w := t.takeWhile isWordChar
     if w.isEmpty then []
     else
       let u := (t.drop w.length).dropWhile isJsWs
       let u := match u with
         | ',' :: r => r.dropWhile isJsWs
         | _ => u
       impIters fuel (some w) u)

/-- Options for the optional named-import group `(?:{\s*([^}]*)\s*})?`:
the capture (with its leading whitespace eaten by `\s*`) and the suffix. -/
def impBraceOpts (u : Str) : List (Option Str × Str) :=
  (match u with
   | c :: rest =>
     if c = lbrace then
       let inner := rest.takeWhile (fun d => d ≠ rbrace)
       match rest.drop inner.length with
       | _ :: rest2 => [(some (inner.dropWhile isJsWs), rest2)]
       | [] => []
     else []
   | [] => []) ++ [(none, u)]

/-- The mandatory tail `\s*from\s*['"]([^'"]+)['"]*;?`: the module-path
capture and the suffix after the whole match. -/
def impFromPart (u : Str) : Option (Str × Str) :=
  let u1 := u.dropWhile isJsWs
  if (lit "from").isPrefixOf u1 then
    let u2 := (u1.drop 4).dropWhile isJsWs
    match u2 with
    | q :: rest =>
      if isQuoteCh q then
        let path := rest.takeWhile (fun d => !isQuoteCh d)
        if path.isEmpty then none
        else
          let u3 := (rest.drop path.length).dropWhile isQuoteCh
          let u3 := match u3 with
            | ';' :: r => r
            | _ => u3
          some (path, u3)
      else none
    | [] => none
  else none

/-- The import regex's match attempt at the head of `t`. -/
def importMatchAt (t : Str) : Option (ImportMatch × Nat) :=
  if (lit "import").isPrefixOf t then
    let u0 := (t.drop 6).dropWhile isJsWs
    ((impIters (t.length + 1) none u0).reverse).findSome? (fun s =>
      (impBraceOpts s.2).findSome? (fun b =>
        (impFromPart b.2).map (fun f =>
          let len := t.length - f.2.length
          ({ full := t.take len, defaultImp := s.1, named := b.1,
             modulePath := f.1 }, len))))
  else none

/-- The `while ((match = importRegex.exec(code)) !== null)` loop. -/
def importMatchesAux : Nat → Str → List ImportMatch
  | 0, _ => []
  | fuel + 1, t =>
    match t with
    | [] => []
    | _ :: rest =>
      match importMatchAt t with
      | some (m, len) => m :: importMatchesAux fuel (t.drop len)
      | none => importMatchesAux fuel rest

def importMatches (s : Str) : List ImportMatch := importMatchesAux (s.length + 1) s

/-- `code.replace(importRegex, '')`. -/
def importStripAux : Nat → Str → Str
  | 0, t => t
  | fuel + 1, t =>
    match t with
    | [] => []
    | c :: rest =>
      match importMatchAt t with
      | some (_, len) => importStripAux fuel (t.drop len)
      | none => c :: importStripAux fuel rest

def importStrip (s : Str) : Str := importStripAux (s.length + 1) s

/-!
## `fixImportStatements` and `prepareCodeForPreview` (`LivePreview.tsx`)
-/

/-- `/```(?:dart|flutter)?\s*|```\s*$/g` (lines 41 and 129). -/
def dartFenceRx : Rx :=
  { alts := [[.lit tick3, .altOpt [lit "dart", lit "flutter"], .starG isJsWs],
             [.lit tick3, .starG isJsWs, .strEnd]] }

/-- `/```(?:jsx?|javascript|tsx?|typescript|dart|flutter)?\s*|```\s*$/g`
(line 252); the tag alternatives appear in the order the JS engine tries
them (`jsx?` prefers the `x`). -/
def fence252Rx : Rx :=
  { alts := [[.lit tick3,
              .altOpt [lit "jsx", lit "js", lit "javascript", lit "tsx",
                       lit "ts", lit "typescript", lit "dart", lit "flutter"],
              .starG isJsWs],
             [.lit tick3, .starG isJsWs, .strEnd]] }

/-- `/^\s*export\s+default\s+(?:GeneratedComponent|App|[^;]+);?\s*$/gm`
(line 272), one alternative per branch of the group. -/
def exportDefaultLineRx : Rx :=
  { alts :=
      [[.starG isJsWs, .lit (lit "export"), .plusG isJsWs, .lit (lit "default"),
        .plusG isJsWs, .lit (lit "GeneratedComponent"), .optLit (lit ";"),
        .starG isJsWs, .lineEnd],
       [.starG isJsWs, .lit (lit "export"), .plusG isJsWs, .lit (lit "default"),
        .plusG isJsWs, .lit (lit "App"), .optLit (lit ";"),
        .starG isJsWs, .lineEnd],
       [.starG isJsWs, .lit (lit "export"), .plusG isJsWs, .lit (lit "default"),
        .plusG isJsWs, .plusG (fun c => c ≠ ';'), .optLit (lit ";"),
        .starG isJsWs, .lineEnd]],
    anchored := true, multiline := true }

/-- `/^\s*export\s+(?:const|let|var|function|class)\s+\w+.*?;?\s*$/gm`
(line 273). -/
def exportDeclLineRx : Rx :=
  { alts :=
      [[.starG isJsWs, .lit (lit "export"), .plusG isJsWs,
        .altLit [lit "const", lit "let", lit "var", lit "function", lit "class"],
        .plusG isJsWs, .plusG isWordChar, .starL (fun c => c ≠ '\n'),
        .optLit (lit ";"), .starG isJsWs, .lineEnd]],
    anchored := true, multiline := true }

/-- `/<[a-zA-Z0-9]+[\s>]/g` — the `seemsLikeJSX` heuristic (line 276). -/
def jsxTagRx : Rx :=
  { alts := [[.cls1 (fun c => c = '<'), .plusG isAsciiAlnum,
              .cls1 (fun c => isJsWs c || c = '>')]] }

def fmtReactMui : Str := lit "react-mui"

def fmtReactNative : Str := lit "react-native"

def fmtFlutter : Str := lit "flutter"

/-- State of the react-native import-collection loop:
react names, react-native names, the Picker flag, other import texts. -/
def rnCollect (ms : List ImportMatch) : List Str × List Str × Bool × List Str :=
  ms.foldl
    (fun acc m =>
      let (reactS, rnS, picker, others) := acc
      if m.modulePath = lit "react" then
        match m.named with
        | some n =>
          (((splitOnChar ',' n).foldl
             (fun a nm => let t := trimJs nm; if t.isEmpty then a else setInsert t a)
             reactS), rnS, picker, others)
        | none => acc
      else if m.modulePath = lit "react-native" then
        match m.named with
        | some n =>
          ((splitOnChar ',' n).foldl
             (fun a nm =>
               let t := trimJs nm
               if t = lit "Picker" then (a.1, a.2.1, true, a.2.2.2)
               else if t.isEmpty then a
               else (a.1, setInsert t a.2.1, a.2.2.1, a.2.2.2))
             (reactS, rnS, picker, others))
        | none => acc
      else if m.modulePath = lit "@react-native-picker/picker" then
        (reactS, rnS, true, others)
      else if !includesB (lit "@mui") m.modulePath then
        (reactS, rnS, picker, others ++ [m.full])
      else acc)
    ([], [], false, [])

/-- State of the react-mui import-collection loop:
react names, MUI component names, other import texts. -/
def muiCollect (ms : List ImportMatch) : List Str × List Str × List Str :=
  ms.foldl
    (fun acc m =>
      let (reactS, muiS, others) := acc
      if m.modulePath = lit "react" then
        match m.named with
        | some n =>
          (((splitOnChar ',' n).foldl
             (fun a nm => let t := trimJs nm; if t.isEmpty then a else setInsert t a)
             reactS), muiS, others)
        | none => acc
      else if m.modulePath = lit "@mui/material" then
        match m.named with
        | some n =>
          (reactS,
           ((splitOnChar ',' n).foldl
             (fun a nm => let t := trimJs nm; if t.isEmpty then a else setInsert t a)
             muiS), others)
        | none => acc
      else (reactS, muiS, others ++ [m.full]))
    ([], [], [])

/-- The `import React...` line rebuilt from the collected react names. -/
def reactImportString (reactS : List Str) : Str :=
  let sorted := sortStrs reactS
  lit "import React" ++
  (if sorted.length > 0 then lit ", \x7b " ++ joinSep (lit ", ") sorted ++ lit " \x7d"
   else []) ++
  lit " from 'react';\n"

/-- `fixImportStatements` (LivePreview.tsx lines 126-234). -/
def fixImportStatements (code : Str) (format : Str) : Str :=
  if format = fmtFlutter then
    trimJs (rxRepl dartFenceRx [] true (trimJs code))
  else
    let codeWithoutImports := trimJs (importStrip code)
    if format = fmtReactNative then
      let (reactS, rnS, picker, others) := rnCollect (importMatches code)
      let cleanImports := reactImportString reactS
      let sortedRn := sortStrs rnS
      let cleanImports := cleanImports ++
        (if sortedRn.length > 0 then
           lit "import \x7b " ++ joinSep (lit ", ") sortedRn ++ lit " \x7d from 'react-native';\n"
         else [])
      let cleanImports := cleanImports ++
        (if picker || includesB (lit "<Picker") code then
           lit "import \x7b Picker \x7d from '@react-native-picker/picker';\n"
         else [])
      let cleanImports := others.foldl (fun acc imp => acc ++ imp ++ lit "\n") cleanImports
      cleanImports ++ lit "\n" ++ codeWithoutImports
    else if format = fmtReactMui then
      let (reactS, muiS, others) := muiCollect (importMatches code)
      let cleanImports := reactImportString reactS
      let sortedMui := sortStrs muiS
      let cleanImports := cleanImports ++
        (if muiS.length > 0 then
           lit "import \x7b " ++ joinSep (lit ", ") sortedMui ++ lit " \x7d from '@mui/material';\n"
         else [])
      let cleanImports := others.foldl (fun acc imp => acc ++ imp ++ lit "\n") cleanImports
      cleanImports ++ lit "\n" ++ codeWithoutImports
    else code

/-- The hardcoded flutter fallback for empty input (lines 240-247). -/
def flutterNoCodeFallback : Str :=
  lit "import 'package:flutter/material.dart';\nvoid main() => runApp(MyApp());\nclass MyApp extends StatelessWidget \x7b\n  @override\n  Widget build(BuildContext context) \x7b\n    return MaterialApp(home: Scaffold(body: Center(child: Text('No code provided'))));\n  \x7d\n\x7d"

/-- The react fallback for empty input (line 248). -/
def reactNoCodeFallback : Str :=
  lit "function App() \x7b return <div>No code provided.</div>; \x7d"

/-- The parse-error fallback component (lines 281-282), echoing
`JSON.stringify(rawCode)`. -/
def parseErrorFallback (rawCode : Str) : Str :=
  lit "function App() \x7b\n  return (\n    <div style=\x7b\x7b padding: '20px', fontFamily: 'monospace', whiteSpace: 'pre-wrap' \x7d\x7d>\n      <h2>Preview Error: Could not parse component</h2>\n      <p>The generated code did not result in a valid React component structure.</p>\n      <pre>\x7b" ++
  jsonStringify rawCode ++
  lit "\x7d</pre>\n    </div>\n  );\n\x7d"

/-- `prepareCodeForPreview` (LivePreview.tsx lines 237-289); `codeFormat`
is the component prop the callback closes over. -/
def prepareCodeForPreview (codeFormat : Str) (rawCode : Str) : Str :=
  if (trimJs rawCode).isEmpty then
    if codeFormat = fmtFlutter then flutterNoCodeFallback else reactNoCodeFallback
  else
    let processedCode := trimJs rawCode
    let processedCode := fixImportStatements processedCode codeFormat
    let processedCode := trimJs (rxRepl fence252Rx [] true processedCode)
    if codeFormat = fmtFlutter then processedCode
    else if codeFormat = fmtReactNative then
      let processedCode :=
        if includesB (lit "GeneratedComponent") processedCode then
          replaceAllLit (lit "GeneratedComponent") (lit "App") processedCode
        else processedCode
      if includesB (lit "export default App") processedCode then processedCode
      else if includesB (lit "function App") processedCode ||
              includesB (lit "const App =") processedCode then
        processedCode ++ lit "\n\nexport default App;"
      else
        lit "function App() \x7b\n  return (\n    " ++ processedCode ++
        lit "\n  );\n\x7d\n\nexport default App;"
    else
      let processedCode :=
        if includesB (lit "GeneratedComponent") processedCode then
          replaceAllLit (lit "GeneratedComponent") (lit "App") processedCode
        else processedCode
      let processedCode := trimJs (rxRepl exportDefaultLineRx [] true processedCode)
      let processedCode := trimJs (rxRepl exportDeclLineRx [] true processedCode)
      let isAlreadyApp :=
        includesB (lit "function App(") processedCode ||
        includesB (lit "const App =") processedCode
      let processedCode :=
        if !isAlreadyApp then
          let seemsLikeJSX :=
            includesB (lit "<") processedCode && includesB (lit ">") processedCode &&
            rxTest jsxTagRx processedCode
          if seemsLikeJSX then
            let wrappedJsx :=
              if includesB (lit "\n") processedCode &&
                 !((lit "(").isPrefixOf processedCode) then
                lit "(\n" ++ processedCode ++ lit "\n)"
              else processedCode
            lit "function App() \x7b\n  return " ++ wrappedJsx ++ lit ";\n\x7d"
          else parseErrorFallback rawCode
        else processedCode
      if includesB (lit "export default App") processedCode then processedCode
      else processedCode ++ lit "\n\nexport default App;"

/-!
## `geminiService.ts` — the two versions of `preprocessCodeForReactLive`

The file contains two successive revisions of the `GeminiService` class;
`gemV1...` embeds the first (lines 185-263), `gemV2...` the second
(lines 472-567).
-/

/-- `/```\s*/g`. -/
def tickWsRx : Rx := { alts := [[.lit tick3, .starG isJsWs]] }

/-- `/```jsx?\s*/g`. -/
def jsxFenceRx : Rx :=
  { alts := [[.lit (tick3 ++ lit "js"), .optLit (lit "x"), .starG isJsWs]] }

/-- `/```javascript\s*/g`. -/
def javascriptFenceRx : Rx :=
  { alts := [[.lit (tick3 ++ lit "javascript"), .starG isJsWs]] }

/-- `/```dart\s*/g`. -/
def dartTagFenceRx : Rx :=
  { alts := [[.lit (tick3 ++ lit "dart"), .starG isJsWs]] }

/-- `/```(?:jsx?|javascript|tsx?|typescript)?\s*/g` (v2, line 474). -/
def gemV2FenceRx : Rx :=
  { alts := [[.lit tick3,
              .altOpt [lit "jsx", lit "js", lit "javascript", lit "tsx",
                       lit "ts", lit "typescript"],
              .starG isJsWs]] }

/-- `/import\s+.*?from\s+['"][^'"]*['"];?\s*/g` (v1, line 190). -/
def importStmtRx : Rx :=
  { alts := [[.lit (lit "import"), .plusG isJsWs, .starL (fun c => c ≠ '\n'),
              .lit (lit "from"), .plusG isJsWs, .cls1 isQuoteCh,
              .starG (fun c => !isQuoteCh c), .cls1 isQuoteCh,
              .optLit (lit ";"), .starG isJsWs]] }

/-- `/export\s+default\s+/g` (v1, line 191). -/
def exportDefaultPrefixRx : Rx :=
  { alts := [[.lit (lit "export"), .plusG isJsWs, .lit (lit "default"),
              .plusG isJsWs]] }

/-- `/export\s*\{[^}]*\};?\s*/g` (v1, line 192). -/
def exportBracesRx : Rx :=
  { alts := [[.lit (lit "export"), .starG isJsWs, .cls1 (fun c => c = lbrace),
              .starG (fun c => c ≠ rbrace), .cls1 (fun c => c = rbrace),
              .optLit (lit ";"), .starG isJsWs]] }

/-- `/ThemeProvider|CssBaseline|useTheme/g` (v1, line 195). -/
def muiUtilRx : Rx :=
  { alts := [[.lit (lit "ThemeProvider")], [.lit (lit "CssBaseline")],
             [.lit (lit "useTheme")]] }

/-- `/\bhook\b/g` for a hook name: the trailing `\b` is either a non-word
next character or the end of the string. -/
def hookRx (name : String) : Rx :=
  { alts := [[.lit (lit name), .lookNext (fun c => !isWordChar c)],
             [.lit (lit name), .strEnd]],
    leftWord := true }

/-- `/const\s+StyledBox\s*=\s*styled\(Box\)\(({[\s\S]*?})\);?\s*/g`
(v1, line 211). -/
def styledBoxDeclRx : Rx :=
  { alts := [[.lit (lit "const"), .plusG isJsWs, .lit (lit "StyledBox"),
              .starG isJsWs, .lit (lit "="), .starG isJsWs,
              .lit (lit "styled(Box)("), .cls1 (fun c => c = lbrace),
              .starL (fun _ => true), .cls1 (fun c => c = rbrace),
              .lit (lit ")"), .optLit (lit ";"), .starG isJsWs]] }

/-- `/\bStyledBox\b/g` (v1, line 212). -/
def styledBoxRefRx : Rx :=
  { alts := [[.lit (lit "StyledBox"), .lookNext (fun c => !isWordChar c)],
             [.lit (lit "StyledBox"), .strEnd]],
    leftWord := true }

/-- `/\n\s*\n+/g`. -/
def blankLinesRx : Rx :=
  { alts := [[.cls1 (fun c => c = '\n'), .starG isJsWs, .plusG (fun c => c = '\n')]] }

/-- `/\bGeneratedComponent\s*;?\s*$/` (v1, line 223; not global). -/
def trailingGenRx : Rx :=
  { alts := [[.lit (lit "GeneratedComponent"), .starG isJsWs, .optLit (lit ";"),
              .starG isJsWs, .strEnd]],
    leftWord := true }

/-- `code.replace(/(\w+)Icon(?=\s*[,}\s])/g, '$1')` (v1, line 208).
A match is a maximal word run ending in `Icon` (at least one extra word
character, by greedy `(\w+)`), whose following character satisfies the
lookahead `\s*[,}\s]`, i.e. is whitespace, a comma or a closing brace;
it is replaced by the run without the `Icon` suffix. -/
def iconReplaceAux : Nat → Str → Str
  | 0, t => t
  | fuel + 1, t =>
    match t with
    | [] => []
    | c :: rest =>
      let w := t.takeWhile isWordChar
      let nextOK :=
        match t.drop w.length with
        | [] => false
        | d :: _ => isJsWs d || d = ',' || d = rbrace
      if 5 ≤ w.length && (lit "Icon").isSuffixOf w && nextOK then
        w.take (w.length - 4) ++ iconReplaceAux fuel (t.drop w.length)
      else c :: iconReplaceAux fuel rest

def iconReplace (s : Str) : Str := iconReplaceAux (s.length + 1) s

/-- The parse-issue fallback of v1 (lines 227-237), echoing
`JSON.stringify(code.slice(0, 200))` of the code processed so far. -/
def gemV1Fallback (codeSoFar : Str) : Str :=
  lit "const GeneratedComponent = () => \x7b\n        return (\n          <Box sx=\x7b\x7b padding: '20px', fontFamily: 'Arial, sans-serif' \x7d\x7d>\n            <Typography variant=\"h6\">Generated Component</Typography>\n            <Typography>There was an issue parsing the generated code.</Typography>\n            <pre style=\x7b\x7b background: '#f5f5f5', padding: '10px', borderRadius: '4px', fontSize: '12px' \x7d\x7d>\n              \x7b" ++
  jsonStringify (codeSoFar.take 200) ++
  lit "\x7d\n            </pre>\n          </Box>\n        );\n      \x7d;"

/-- `GeminiService.preprocessCodeForReactLive`, first revision
(geminiService.ts lines 185-241). -/
def gemV1PreprocessCodeForReactLive (code0 : Str) : Str :=
  let code := rxRepl tickWsRx [] true
    (rxRepl javascriptFenceRx [] true (rxRepl jsxFenceRx [] true code0))
  let code := rxRepl importStmtRx [] true code
  let code := rxRepl exportDefaultPrefixRx [] true code
  let code := rxRepl exportBracesRx [] true code
  let code := rxRepl muiUtilRx [] true code
  let code := rxRepl (hookRx "useState") (lit "React.useState") true code
  let code := rxRepl (hookRx "useEffect") (lit "React.useEffect") true code
  let code := rxRepl (hookRx "useCallback") (lit "React.useCallback") true code
  let code := rxRepl (hookRx "useMemo") (lit "React.useMemo") true code
  let code := rxRepl (hookRx "useRef") (lit "React.useRef") true code
  let code := replaceAllLit (lit "React.React.") (lit "React.") code
  let code := iconReplace code
  let code := rxRepl styledBoxDeclRx [] true code
  let code := rxRepl styledBoxRefRx (lit "Box") true code
  let code :=
    if !includesB (lit "const GeneratedComponent") code &&
       !includesB (lit "function GeneratedComponent") code then
      lit "const GeneratedComponent = () => \x7b\n  return (\n    " ++ code ++
      lit "\n  );\n\x7d;"
    else code
  let code := trimJs (rxRepl blankLinesRx (lit "\n") true code)
  let code := rxRepl trailingGenRx [] false code
  if !includesB (lit "return") code then gemV1Fallback code else code

/-- `GeminiService.preprocessReactNativeCode`, first revision
(lines 243-252): `code.replace(/^(function|const)\s+App/, 'export default $1 App')`. -/
def rnExportPrefix (code : Str) : Str :=
  let tryKw : Str → Option Str := fun kw =>
    if kw.isPrefixOf code then
      let r := code.drop kw.length
      let w := r.takeWhile isJsWs
      if w.isEmpty then none
      else if (lit "App").isPrefixOf (r.drop w.length) then
        some (lit "export default " ++ kw ++ lit " App" ++ (r.drop w.length).drop 3)
      else none
    else none
  match tryKw (lit "function") with
  | some s => s
  | none =>
    match tryKw (lit "const") with
    | some s => s
    | none => code

def gemV1PreprocessReactNativeCode (code0 : Str) : Str :=
  let code := rxRepl tickWsRx [] true
    (rxRepl javascriptFenceRx [] true (rxRepl jsxFenceRx [] true code0))
  let code :=
    if !includesB (lit "import React") code then
      lit "import React, \x7b useState, useEffect \x7d from 'react';\nimport \x7b View, Text, StyleSheet, ScrollView, TouchableOpacity, Image, StatusBar \x7d from 'react-native';\n\n" ++ code
    else code
  let code :=
    if !includesB (lit "export default") code then rnExportPrefix code
    else code
  trimJs code

/-- `GeminiService.preprocessFlutterCode`, first revision (lines 254-263). -/
def gemV1PreprocessFlutterCode (code0 : Str) : Str :=
  let code := rxRepl tickWsRx [] true (rxRepl dartTagFenceRx [] true code0)
  let code :=
    if !includesB (lit "import 'package:flutter/material.dart'") code then
      lit "import 'package:flutter/material.dart';\n\n" ++ code
    else code
  let code :=
    if !includesB (lit "void main()") code then
      code ++ lit "\n\nvoid main() \x7b\n  runApp(MyApp());\n\x7d"
    else code
  trimJs code

/-- `/(function|const)\s+(App)\s*=/g → 'const GeneratedComponent ='`
(v2, line 480; the replacement is the fixed string, whatever the keyword). -/
def constFnAppEqRx : Rx :=
  { alts := [[.altLit [lit "function", lit "const"], .plusG isJsWs,
              .lit (lit "App"), .starG isJsWs, .lit (lit "=")]] }

/-- `/function\s+App/g` (v2, line 481). -/
def fnAppRx : Rx :=
  { alts := [[.lit (lit "function"), .plusG isJsWs, .lit (lit "App")]] }

/-- The fixed fallback component of v2 (lines 500-512). -/
def gemV2Fallback : Str :=
  lit "import React from 'react';\nimport \x7b Box, Typography \x7d from '@mui/material';\n\nconst GeneratedComponent = () => \x7b\n  return (\n    <Box sx=\x7b\x7b padding: '20px', fontFamily: 'Arial, sans-serif' \x7d\x7d>\n      <Typography variant=\"h6\">Generated Content</Typography>\n      <Typography>The component code was generated successfully.</Typography>\n    </Box>\n  );\n\x7d;\n\nexport default GeneratedComponent;"

/-- `GeminiService.preprocessCodeForReactLive`, second revision
(geminiService.ts lines 472-520). -/
def gemV2PreprocessCodeForReactLive (code0 : Str) : Str :=
  let code := rxRepl tickWsRx [] true (rxRepl gemV2FenceRx [] true code0)
  let code := replaceAllLit (lit "React.React.") (lit "React.") code
  let code := rxRepl constFnAppEqRx (lit "const GeneratedComponent =") true code
  let code := rxRepl fnAppRx (lit "function GeneratedComponent") true code
  let code :=
    replaceAllLit (lit "export default App") (lit "export default GeneratedComponent") code
  let code :=
    if !includesB (lit "export default GeneratedComponent") code then
      if includesB (lit "function GeneratedComponent") code then
        if !((lit "export default GeneratedComponent;").isSuffixOf code) then
          code ++ lit "\n\nexport default GeneratedComponent;"
        else code
      else if includesB (lit "const GeneratedComponent =") code then
        if !((lit "export default GeneratedComponent;").isSuffixOf code) then
          code ++ lit "\n\nexport default GeneratedComponent;"
        else code
      else gemV2Fallback
    else code
  trimJs (rxRepl blankLinesRx (lit "\n\n") true code)

/-- `GeminiService.generateReactCode` (geminiService.ts lines 45-79, first
revision).  The prompt templates are pure string building whose content
feeds only the opaque LLM call, so the LLM is modelled as an oracle indexed
by invocation count and the template texts are not reproduced.  With an
unrecognized `codeFormat` the source leaves `prompt = ''`, still calls
`generateContent`, and returns the response text with no preprocessing.
The result is the produced code paired with the number of model
invocations. -/
def geminiGenerateReactCode (llm : Nat → Str) (codeFormat : Str) : Str × Nat :=
  let raw := llm 0
  let code :=
    if codeFormat = fmtReactMui then gemV1PreprocessCodeForReactLive raw
    else if codeFormat = fmtReactNative then gemV1PreprocessReactNativeCode raw
    else if codeFormat = fmtFlutter then gemV1PreprocessFlutterCode raw
    else raw
  (code, 1)

/-!
## `azureOpenAIService.ts` — preprocessing, validation and the retry loop

The `componentMappings` interpolations inside the fallback template
literals are resolved to their values (azureOpenAIService.ts lines 13-56).
-/

/-- `/```(?:jsx?|javascript|tsx?|typescript)?\s*/gmi` (line 1101). -/
def azFenceRx : Rx :=
  { alts := [[.lit tick3,
              .altOptCI [lit "jsx", lit "js", lit "javascript", lit "tsx",
                         lit "ts", lit "typescript"],
              .starG isJsWs]] }

/-- `/^[^i]*?(?=import)/i` (line 1104): the shortest prefix of non-`i`
characters followed by (a lookahead at) `import`, case-insensitively; not
global, and `^` without `m` restricts it to the start of the string. -/
def azExplanatoryRx : Rx :=
  { alts := [[.starL (fun c => foldCase c ≠ 'i'), .lookLitCI (lit "import")]],
    anchored := true }

/-- `/(?:export\s+default\s+\w+;?\s*)[\s\S]*$/gmi` (line 1107): from the
first `export default <word>` onward, everything to the end of the string
(`[\s\S]*` is greedy, so the `m`-flag `$` lands at the very end). -/
def azExportCleanupRx : Rx :=
  { alts := [[.litCI (lit "export"), .plusG isJsWs, .litCI (lit "default"),
              .plusG isJsWs, .plusG isWordChar, .optLit (lit ";"),
              .starG isJsWs, .starG (fun _ => true), .lineEnd]],
    multiline := true }

/-- `/export\s+default\s+\w+;?\s*$/gmi` (line 1130). -/
def azTrailingExportRx : Rx :=
  { alts := [[.litCI (lit "export"), .plusG isJsWs, .litCI (lit "default"),
              .plusG isJsWs, .plusG isWordChar, .optLit (lit ";"),
              .starG isJsWs, .lineEnd]],
    multiline := true }

/-- `/```(?:jsx?|javascript|react-native)?\s*/gmi` (line 1144). -/
def azRnFenceRx : Rx :=
  { alts := [[.lit tick3,
              .altOptCI [lit "jsx", lit "js", lit "javascript", lit "react-native"],
              .starG isJsWs]] }

/-- `/(?:export\s+default\s+\w+;)?\s*$/gmi` (line 1157): with the optional
group taken, a trailing export statement plus whitespace before a line end;
without it, trailing whitespace before a line end (its many zero-length
matches are no-ops, since the replacement is empty). -/
def azRnTrailingRx : Rx :=
  { alts := [[.litCI (lit "export"), .plusG isJsWs, .litCI (lit "default"),
              .plusG isJsWs, .plusG isWordChar, .lit (lit ";"),
              .starG isJsWs, .lineEnd],
             [.starG isJsWs, .lineEnd]],
    multiline := true }

/-- `/```(?:dart|flutter)?\s*/gmi` (line 1171). -/
def azFlutterFenceRx : Rx :=
  { alts := [[.lit tick3, .altOptCI [lit "dart", lit "flutter"], .starG isJsWs]] }

/-- `createEnhancedFallbackReactComponent` (lines 1186-1385). -/
def azFallbackReactComponent : Str :=
  lit "import React, \x7b useState, useCallback \x7d from 'react';\nimport \x7b \n  Box, Typography, Button, Card, TextField, \n  Grid, IconButton, CircularProgress, Checkbox, FormControlLabel,\n  Select, MenuItem, FormControl, InputLabel, Paper,\n  AppBar, Toolbar, Avatar, Badge, Chip, Divider, Drawer,\n  List, ListItem, ListItemText, ListItemIcon, Switch,\n  Dialog, DialogTitle, DialogContent, DialogActions,\n  Snackbar, Alert, Tabs, Tab, Accordion, AccordionSummary,\n  AccordionDetails,\n  Stepper, Step, StepLabel, Breadcrumbs,\n  Link, Tooltip, Popover, Menu, Fade, Grow, Slide,\n  TablePagination, TableSortLabel, InputAdornment, CssBaseline,\n  ThemeProvider, createTheme, useTheme, useMediaQuery,\n  Collapse, ListItemButton, Stack, Container\n\x7d from '@mui/material';\nimport \x7b \n  Search, Notifications, Dashboard, Campaign, Person,\n  Analytics, Description, Brightness4, Brightness7,\n  Menu as MenuIcon, Close, Add, Edit, Delete, Save,\n  Cancel, Check, Warning, Error, Info, Upload,\n  Download, Print, Share, Refresh, Settings, Help,\n  ExpandMore, ChevronRight, ChevronLeft, ArrowBack,\n  ArrowForward, Home, Work, Email, Phone, LocationOn,\n  ExpandLess, MoreVert, FilterList, Visibility,\n  Business, Group, Assignment, NotificationsActive\n\x7d from '@mui/icons-material';\n\nconst GeneratedComponent: React.FC = () => \x7b\n  const [isSidebarOpen, setSidebarOpen] = useState(true);\n  const [activeTab, setActiveTab] = useState(0);\n  const [menuOpen, setMenuOpen] = useState<Record<string, boolean>>(\x7b\x7d);\n\n  const theme = createTheme(\x7b\n    palette: \x7b\n      primary: \x7b main: '#D32F2F' \x7d,\n      secondary: \x7b main: '#757575' \x7d,\n      background: \x7b default: '#fff' \x7d,\n    \x7d,\n    typography: \x7b\n      fontFamily: 'Roboto, sans-serif',\n      h6: \x7b fontSize: '1.25rem', fontSize: isMobile ? '1rem' : '1.25rem' \x7d,\n    \x7d,\n  \x7d);\n\n  const isMobile = useMediaQuery(theme => theme.breakpoints.down('sm'));\n\n  const handleSidebarToggle = useCallback(() => \x7b\n    setSidebarOpen(!isSidebarOpen);\n  \x7d, [isSidebarOpen]);\n\n  const handleTabChange = (_event: React.SyntheticEvent, newValue: number) => \x7b\n    setActiveTab(newValue);\n  \x7d;\n\n  const toggleMenu = (menu: string) => \x7b\n    setMenuOpen((prev) => (\x7b ...prev, [menu]: !prev[menu] \x7d));\n  \x7d;\n\n  return (\n    <ThemeProvider theme=\x7btheme\x7d>\n      <CssBaseline />\n      <AppBar position=\"fixed\" sx=\x7b\x7b backgroundColor: '#D32F2F' \x7d\x7d>\n        <Toolbar sx=\x7b\x7b flexDirection: isMobile ? 'column' : 'row', alignItems: isMobile ? 'stretch' : 'center' \x7d\x7d>\n          <IconButton edge=\"start\" color=\"inherit\" onClick=\x7bhandleSidebarToggle\x7d aria-label=\"Open sidebar\">\n            <MenuIcon />\n          </IconButton>\n          <Typography variant=\"h6\" sx=\x7b\x7b flexGrow: 1, fontWeight: 'bold', color: '#fff', fontSize: isMobile ? '16px' : '20px' \x7d\x7d>\n            Lead Management System\n          </Typography>\n          <Box sx=\x7b\x7b display: 'flex', flexDirection: isMobile ? 'column' : 'row', gap: isMobile ? '8px' : '16px' \x7d\x7d>\n            <IconButton color=\"inherit\" aria-label=\"Search management system\">\n              <SearchIcon />\n            </IconButton>\n            <IconButton color=\"inherit\" aria-label=\"Notifications\">\n              <Badge badgeContent=\x7b4\x7d color=\"error\">\n                <NotificationsIcon />\n              </Badge>\n            </IconButton>\n            <IconButton color=\"inherit\" aria-label=\"Open user profile\">\n              <Avatar sx=\x7b\x7b bgcolor: '#757575', color: '#fff' \x7d\x7d>A</Avatar>\n            </IconButton>\n          </Box>\n        </Toolbar>\n      </AppBar>\n      <Drawer\n        component=\"nav\"\n        sx=\x7b\x7b\n          width: \x7b sm: isSidebarOpen && !isMobile ? 240 : 60 \x7d,\n          flexShrink: \x7b sm: 0 \x7d,\n          '& .MuiDrawer-paper': \x7b width: isSidebarOpen && !isMobile ? 240 : 60, boxSizing: 'border-box', transition: 'width 0.3s ease' \x7d,\n          display: isMobile ? 'none' : 'block',\n        \x7d\x7d\n        role=\"navigation\"\n        aria-label=\"Sidebar navigation\"\n      >\n        <Box sx=\x7b\x7b height: '100%', display: 'flex', flexDirection: 'column', overflow: 'hidden' \x7d\x7d>\n          <List sx=\x7b\x7b flexGrow: 1, overflow: 'auto' \x7d\x7d>\n            <ListItem>\n              <Typography variant=\"h6\" sx=\x7b\x7b fontWeight: 'bold', color: '#D32F2F', p: 2, fontSize: isMobile ? '14px' : '16px' \x7d\x7d>\n                Title\n              </Typography>\n            </ListItem>\n            <ListItem button onClick=\x7b() => toggleMenu('leadManagement')\x7d aria-expanded=\x7bmenuOpen['leadManagement'] ? 'true' : 'false'\x7d aria-label=\"Lead Management menu\">\n              <ListItemIcon>\n                <DashboardIcon />\n              </ListItemIcon>\n              \x7bisSidebarOpen && !isMobile && <ListItemText primary=\"Lead Management\" />\x7d\n              \x7bmenuOpen['leadManagement'] ? <ExpandLess /> : <ExpandMore />\x7d\n            </ListItem>\n            <Collapse in=\x7bmenuOpen['leadManagement']\x7d timeout=\"auto\" unmountOnExit>\n              <List component=\"div\" disablePadding>\n                <ListItem button sx=\x7b\x7b pl: 4 \x7d\x7d aria-label=\"All Leads submenu\">\n                  <ListItemText primary=\"All Leads\" sx=\x7b\x7b fontSize: isMobile ? '12px' : '14px' \x7d\x7d />\n                </ListItem>\n                <ListItem button sx=\x7b\x7b pl: 4 \x7d\x7d aria-label=\"Upload Leads submenu\">\n                  <ListItemText primary=\"Upload Leads\" sx=\x7b\x7b fontSize: isMobile ? '12px' : '14px' \x7d\x7d />\n                </ListItem>\n              </List>\n            </Collapse>\n            <ListItem button aria-label=\"Relationship Managers\">\n              <ListItemIcon>\n                <Group />\n              </ListItemIcon>\n              \x7bisSidebarOpen && !isMobile && <ListItemText primary=\"Relationship Managers\" />\x7d\n            </ListItem>\n            <ListItem button aria-label=\"User Management\">\n              <ListItemIcon>\n                <Person />\n              </ListItemIcon>\n              \x7bisSidebarOpen && !isMobile && <ListItemText primary=\"User Management\" />\x7d\n            </ListItem>\n            <ListItem button onClick=\x7b() => toggleMenu('settings')\x7d aria-expanded=\x7bmenuOpen['settings'] ? 'true' : 'false'\x7d aria-label=\"Settings menu\">\n              <ListItemIcon>\n                <Settings />\n              </ListItemIcon>\n              \x7bisSidebarOpen && !isMobile && <ListItemText primary=\"Settings\" />\x7d\n              \x7bmenuOpen['settings'] ? <ExpandLess /> : <ExpandMore />\x7d\n            </ListItem>\n            <Collapse in=\x7bmenuOpen['settings']\x7d timeout=\"auto\" unmountOnExit>\n              <List component=\"div\" disablePadding>\n                <ListItem button sx=\x7b\x7b pl: 8 \x7d\x7d aria-label=\"Audit Logs submenu\">\n                  <ListItemText primary=\"Audit Logs\" sx=\x7b\x7b fontSize: isMobile ? '12px' : '14px' \x7d\x7d />\n                </ListItem>\n                <ListItem button sx=\x7b\x7b pl: 10 \x7d\x7d aria-label=\"Notifications submenu\">\n                  <ListItemText primary=\"Notifications\" sx=\x7b\x7b fontSize: isMobile ? '12px' : '14px' \x7d\x7d />\n                </ListItem>\n              </List>\n            </Collapse>\n            <Divider sx=\x7b\x7b marginY: '16px' \x7d\x7d />\n            <ListItem>\n              <ListItemText primary=\"System Admin\" secondary=\"admin@example.com\" sx=\x7b\x7b fontSize: isMobile ? '12px' : '14px' \x7d\x7d />\n            </ListItem>\n          </List>\n        </Box>\n      </Drawer>\n      <Box\n        sx=\x7b\x7b\n          flexGrow: 1,\n          padding: \x7b xs: '16px', sm: '24px' \x7d,\n          marginLeft: \x7b sm: isSidebarOpen && !isMobile ? '240px' : '60px' \x7d,\n          marginTop: \x7b xs: '60px', sm: '80px' \x7d,\n          transition: 'margin-left 0.3s ease',\n          backgroundColor: '#fff',\n        \x7d\x7d\n        role=\"main\"\n        aria-label=\"Main content\"\n      >\n        <Tabs value=\x7bactiveTab\x7d onChange=\x7bhandleTabChange\x7d aria-label=\"Notification settings\" sx=\x7b\x7b color: 'primary.main', fontSize: isMobile ? '12px' : '14px' \x7d\x7d>\n          <Tab label=\"Notification Settings\" aria-controls=\"tabpanel-0\" />\n          <Tab label=\"Email Templates\" />\n          <Tab label=\"SMTP Configuration\" />\n        </Tabs>\n        \x7bactiveTab === 0 && (\n          <Box sx=\x7b\x7b marginTop: '16px' \x7d\x7d>\n            <Typography variant=\"h6\" sx=\x7b\x7b fontWeight: 'bold', fontSize: isMobile ? '16px' : '18px' \x7d\x7d>Lead Notifications</Typography>\n            <FormControlLabel control=\x7b<Switch color=\"primary\" sx=\x7b\x7b transform: isMobile ? 'scale(0.8)' : '1' \x7d\x7d />\x7d label=\"New Lead Assignment\" aria-label=\"Toggle new lead assignment notifications\" sx=\x7b\x7b fontSize: isMobile ? '12px' : '14px' \x7d\x7d />\n            <FormControlLabel control=\x7b<Switch color=\"primary\" sx=\x7b\x7b transform: isMobile ? 'scale(0.8)' : '1' \x7d\x7d />\x7d label=\"Lead Status Updates\" aria-label=\"Toggle lead status updates notifications\" sx=\x7b\x7b fontSize: isMobile ? '12px' : '14px' \x7d\x7d />\n            <FormControlLabel control=\x7b<Switch color=\"primary\" sx=\x7b\x7b transform: isMobile ? 'scale(0.8)' : '1' \x7d\x7d />\x7d label=\"Task & Follow-up Reminders\" aria-label=\"Toggle task and follow-up reminders notifications\" sx=\x7b\x7b fontSize: isMobile ? '12px' : '14px' \x7d\x7d />\n            <Divider sx=\x7b\x7b marginY: '16px' \x7d\x7d />\n            <Typography variant=\"h6\" sx=\x7b\x7b fontWeight: 'bold', fontSize: isMobile ? '16px' : '18px' \x7d\x7d>System Notifications</Typography>\n            <FormControlLabel control=\x7b<Switch color=\"primary\" sx=\x7b\x7b transform: isMobile ? 'scale(0.8)' : '1' \x7d\x7d />\x7d label=\"System Alerts & Maintenance\" aria-label=\"Toggle system alerts and maintenance notifications\" sx=\x7b\x7b fontSize: isMobile ? '12px' : '14px' \x7d\x7d />\n            <FormControlLabel control=\x7b<Switch color=\"primary\" sx=\x7b\x7b transform: isMobile ? 'scale(0.8)' : '1' \x7d\x7d />\x7d label=\"Campaign Status Updates\" aria-label=\"Toggle campaign status updates notifications\" sx=\x7b\x7b fontSize: isMobile ? '12px' : '14px' \x7d\x7d />\n            <Divider sx=\x7b\x7b marginY: '16px' \x7d\x7d />\n            <Typography variant=\"h6\" sx=\x7b\x7b fontWeight: 'bold', fontSize: isMobile ? '16px' : '18px' \x7d\x7d>Report Notifications</Typography>\n            <FormControlLabel control=\x7b<Switch color=\"primary\" sx=\x7b\x7b transform: isMobile ? 'scale(0.8)' : '1' \x7d\x7d />\x7d label=\"Daily Activity Report\" aria-label=\"Toggle daily activity report notifications\" sx=\x7b\x7b fontSize: isMobile ? '12px' : '14px' \x7d\x7d />\n            <FormControlLabel control=\x7b<Switch color=\"primary\" sx=\x7b\x7b transform: isMobile ? 'scale(0.8)' : '1' \x7d\x7d />\x7d label=\"Weekly Performance Report\" aria-label=\"Toggle weekly performance report notifications\" sx=\x7b\x7b fontSize: isMobile ? '12px' : '14px' \x7d\x7d />\n            <Button variant=\"contained\" color=\"primary\" sx=\x7b\x7b marginTop: '16px', width: isMobile ? '100%' : 'auto', padding: isMobile ? '8px 16px' : '10px 20px', fontSize: isMobile ? '12px' : '14px' \x7d\x7d aria-label=\"Save notification settings\">\n              SAVE SETTINGS\n            </Button>\n          </Box>\n        )\x7d\n      </Box>\n    </ThemeProvider>\n  );\n\x7d;\n\n" ++
  lit "export default GeneratedComponent;"

/-- `createEnhancedFallbackReactNativeComponent` (lines 1387-1458). -/
def azFallbackReactNativeComponent : Str :=
  lit "import React, \x7b useState \x7d from 'react';\nimport \x7b SafeAreaView, View, Text, StyleSheet, TouchableOpacity, FlatList, Dimensions \x7d from 'react-native';\nimport \x7b Ionicons \x7d from '@expo/vector-icons';\n\nconst \x7b width \x7d = Dimensions.get('window');\n\nconst App: React.FC = () => \x7b\n  const [isDrawerOpen, setDrawerOpen] = useState(false);\n\n  const toggleDrawer = () => \x7b\n    setDrawerOpen(!isDrawerOpen);\n  \x7d;\n\n  const isMobile = width < 400;\n\n  return (\n    <SafeAreaView style=\x7bstyles.container\x7d>\n      <View style=\x7b[styles.header, \x7b paddingHorizontal: isMobile ? 8 : 10 \x7d]\x7d>\n        <TouchableOpacity onPress=\x7btoggleDrawer\x7d accessible=\x7btrue\x7d accessibilityRole=\"button\" accessibilityLabel=\"Open navigation drawer\">\n          <Ionicons name=\"menu\" size=\x7bisMobile ? 20 : 24\x7d color=\"#fff\" />\n        </TouchableOpacity>\n        <Text style=\x7b[styles.headerTitle, \x7b fontSize: isMobile ? 16 : 18 \x7d]\x7d>Lead Management System</Text>\n        <TouchableOpacity accessible=\x7btrue\x7d accessibilityRole=\"button\" accessibilityLabel=\"View notifications\">\n          <Ionicons name=\"notifications\" size=\x7bisMobile ? 20 : 24\x7d color=\"#fff\" />\n        </TouchableOpacity>\n      </View>\n      \x7bisDrawerOpen && (\n        <View style=\x7b[styles.drawer, \x7b width: isMobile ? 180 : 200 \x7d]\x7d accessible=\x7btrue\x7d accessibilityLabel=\"Navigation drawer\">\n          <TouchableOpacity onPress=\x7b() => setDrawerOpen(false)\x7d accessible=\x7btrue\x7d accessibilityRole=\"button\" accessibilityLabel=\"Close navigation drawer\">\n            <Ionicons name=\"close\" size=\x7bisMobile ? 20 : 24\x7d color=\"#000\" />\n          </TouchableOpacity>\n          <Text style=\x7b[styles.menuItem, \x7b fontSize: isMobile ? 14 : 16 \x7d]\x7d>Menu Item 1</Text>\n          <Text style=\x7b[styles.menuItem, \x7b fontSize: isMobile ? 14 : 16 \x7d]\x7d>Menu Item 2</Text>\n        </View>\n      )\x7d\n      <FlatList style=\x7b[styles.mainContent, \x7b padding: isMobile ? 12 : 16 \x7d]\x7d>\n        <Text style=\x7b\x7b fontSize: isMobile ? 14 : 16 \x7d\x7d>Content Here</Text>\n      </FlatList>\n    </SafeAreaView>\n  );\n\x7d;\n\nconst styles = StyleSheet.create(\x7b\n  container: \x7b flex: 1, backgroundColor: '#fff' \x7d,\n  header: \x7b \n    height: 60, \n    backgroundColor: '#D32F2F', \n    flexDirection: 'row', \n    alignItems: 'center', \n  \x7d,\n  headerTitle: \x7b \n    flex: 1, \n    color: '#fff', \n    fontWeight: 'bold',\n  \x7d,\n  drawer: \x7b \n    position: 'absolute', \n    top: 60, \n    left: 0, \n    height: '100%', \n    backgroundColor: '#fff', \n    padding: 10 \n  \x7d,\n  menuItem: \x7b \n    paddingVertical: 10 \n  \x7d,\n  mainContent: \x7b flex: 1 \x7d,\n\x7d);\n\nexport default App;"

/-- `createEnhancedFallbackFlutterApp` (lines 1460-1553). -/
def azFallbackFlutterApp : Str :=
  lit "import 'package:flutter/material.dart';\n\nvoid main() \x7b\n  runApp(const MyApp());\n\x7d\n\nclass MyApp extends StatelessWidget \x7b\n  const MyApp(\x7bsuper.key\x7d);\n\n  @override\n  Widget build(BuildContext context) \x7b\n    return MaterialApp(\n      title: 'Generated Flutter App',\n      theme: ThemeData(\n        primarySwatch: Colors.red,\n        textTheme: const TextTheme(\n          headline6: TextStyle(fontSize: 20.0, fontWeight: FontWeight.w500),\n        ),\n      ),\n      home: const HomeScreen(),\n    );\n  \x7d\n\x7d\n\nclass HomeScreen extends StatefulWidget \x7b\n  const HomeScreen(\x7bsuper.key\x7d);\n\n  @override\n  _HomeScreenState createState() => _HomeScreenState();\n\x7d\n\nclass _HomeScreenState extends State<HomeScreen> \x7b\n  bool _isDrawerOpen = false;\n  int _selectedIndex = 0;\n\n  void toggleDrawer() \x7b\n    setState(() => _isDrawerOpen = !_isDrawerOpen);\n  \x7d\n\n  void _onNavItemTapped(int index) \x7b\n    setState(() => _selectedIndex = index);\n  \x7d\n\n  @override\n  Widget build(BuildContext context) \x7b\n    final screenWidth = MediaQuery.of(context).size.width;\n    final isMobile = screenWidth < 600;\n\n    return Scaffold(\n      appBar: AppBar(\n        title: Text('Feedback Management System', style: TextStyle(fontSize: isMobile ? 18 : 20)),\n        leading: IconButton(\n          icon: const Icon(Icons.menu),\n          onPressed: toggleDrawer,\n          tooltip: 'Open navigation drawer',\n        ),\n      ),\n      drawer: _isDrawerOpen\n          ? Drawer(\n              child: ListView(\n                padding: EdgeInsets.all(isMobile ? 8.0 : 16.0),\n                children: [\n                  ListTile(\n                    title: Text('Menu Item 1', style: TextStyle(fontSize: isMobile ? 14 : 16)),\n                    onTap: () \x7b\x7d,\n                  ),\n                  ListTile(\n                    title: Text('Feedback', style: TextStyle(fontSize: isMobile ? 14 : 16)),\n                    onTap: () \x7b\x7d,\n                  ),\n                ],\n              ),\n            )\n          : null,\n      bottomNavigationBar: isMobile\n          ? BottomNavigationBar(\n              items: const [\n                BottomNavigationBarItem(icon: Icon(Icons.home), label: 'Home'),\n                BottomNavigationBarItem(icon: Icon(Icons.feedback), label: 'Feedback'),\n              ],\n              currentIndex: _selectedIndex,\n              onTap: _onNavItemTapped,\n            )\n          : null,\n      body: Container(\n        color: Colors.grey[100],\n        padding: EdgeInsets.all(isMobile ? 12.0 : 16.0),\n        child: Text('Content here', style: TextStyle(fontSize: isMobile ? 14 : 16)),\n      ),\n    );\n  \x7d\n\x7d"

/-- `preprocessCodeForReactLive` (azureOpenAIService.ts lines 1097-1138). -/
def azPreprocessCodeForReactLive (code0 : Str) : Str :=
  let c := rxRepl tickWsRx [] true (rxRepl azFenceRx [] true code0)
  let c := rxRepl azExplanatoryRx [] false c
  let c := rxRepl azExportCleanupRx (lit "export default GeneratedComponent;") true c
  let c :=
    if !includesB (lit "import React") c then lit "import React from 'react';\n" ++ c
    else c
  let hooksUsed :=
    [lit "useState", lit "useEffect", lit "useCallback", lit "useMemo", lit "useContext"]
  let missingHooks := hooksUsed.filter (fun h =>
    includesB h c && !includesB (lit "\x7b " ++ h) c && !includesB (lit ", " ++ h) c)
  let c :=
    if missingHooks.length > 0 then
      replaceFirstLit (lit "import React")
        (lit "import React, \x7b " ++ joinSep (lit ", ") missingHooks ++ lit " \x7d") c
    else c
  let c :=
    if !includesB (lit "export default GeneratedComponent") c then
      if includesB (lit "const GeneratedComponent") c then
        trimJs (rxRepl azTrailingExportRx [] true c) ++
        lit "\n\nexport default GeneratedComponent;"
      else azFallbackReactComponent
    else c
  trimJs c

/-- `preprocessReactNativeCode` (lines 1140-1165). -/
def azPreprocessReactNativeCode (code0 : Str) : Str :=
  let c := rxRepl tickWsRx [] true (rxRepl azRnFenceRx [] true code0)
  let c :=
    if !includesB (lit "import React") c then
      lit "import React, \x7b useState, useEffect \x7d from 'react';\nimport \x7b View, Text, FlatList, TouchableOpacity \x7d from 'react-native';\n\n" ++ c
    else c
  let c :=
    if !includesB (lit "export default") c then
      if includesB (lit "const App") c || includesB (lit "function App") c then
        trimJs (rxRepl azRnTrailingRx [] true c) ++ lit "\n\nexport default App;"
      else azFallbackReactNativeComponent
    else c
  trimJs c

/-- `preprocessFlutterCode` (lines 1167-1184). -/
def azPreprocessFlutterCode (code0 : Str) : Str :=
  let c := rxRepl tickWsRx [] true (rxRepl azFlutterFenceRx [] true code0)
  let c :=
    if !includesB (lit "import 'package:flutter/material.dart'") c then
      lit "import 'package:flutter/material.dart';\n\n" ++ c
    else c
  let c := if !includesB (lit "main()") c then azFallbackFlutterApp else c
  trimJs c

/-- `/<[A-Za-z][^>]*>/` — the JSX validity heuristic (line 419 of
azureOpenAIService.ts and line 47 of App.tsx). -/
def jsxValidRx : Rx :=
  { alts := [[.cls1 (fun c => c = '<'), .cls1 isAsciiLetter,
              .starG (fun c => c ≠ '>'), .cls1 (fun c => c = '>')]] }

structure ValidationResult where
  valid : Bool
  message : Str

/-- `validateCode` — defined identically inside
`generateReactCode` (azureOpenAIService.ts lines 405-447) and at top level
in App.tsx (lines 33-75). -/
def validateCode (code : Str) (format : Str) : ValidationResult :=
  if code.isEmpty then { valid := false, message := lit "No code provided" }
  else if !includesB (lit "return") code then
    { valid := false, message := lit "Code must contain a return statement" }
  else if format = fmtReactMui then
    if !includesB (lit "aria-label") code && !includesB (lit "role") code then
      { valid := false,
        message := lit "React-MUI code must include accessibility attributes (e.g., aria-label, role)" }
    else if !includesB (lit "GeneratedComponent") code then
      { valid := false, message := lit "React-MUI code must define GeneratedComponent" }
    else if !rxTest jsxValidRx code then
      { valid := false, message := lit "React-MUI code must contain valid JSX" }
    else if !includesB (lit "useMediaQuery") code && !includesB (lit "breakpoints") code then
      { valid := false, message := lit "React-MUI code must include responsive breakpoints" }
    else { valid := true, message := [] }
  else if format = fmtReactNative then
    if !includesB (lit "accessible=\x7btrue\x7d") code &&
       !includesB (lit "accessibilityLabel") code then
      { valid := false,
        message := lit "React Native code must include accessibility props (e.g., accessible, accessibilityLabel)" }
    else if !includesB (lit "App") code then
      { valid := false, message := lit "React Native code must define an App component" }
    else if !includesB (lit "Dimensions") code then
      { valid := false, message := lit "React Native code must use Dimensions for responsive design" }
    else { valid := true, message := [] }
  else if format = fmtFlutter then
    if !includesB (lit "Semantics") code then
      { valid := false, message := lit "Flutter code must include Semantics widgets for accessibility" }
    else if !includesB (lit "App") code then
      { valid := false, message := lit "Flutter code must define an App component" }
    else if !includesB (lit "MediaQuery") code then
      { valid := false, message := lit "Flutter code must use MediaQuery for responsive design" }
    else { valid := true, message := [] }
  else { valid := true, message := [] }

def natStr (n : Nat) : Str := (Nat.repr n).data

/-- `validateResponsiveDesign` — defined identically inside
`generateReactCode` (azureOpenAIService.ts lines 449-464) and at top level
in App.tsx (lines 78-93).  The escaped template strings the source passes
to `includes` denote the plain texts used below. -/
def validateResponsiveDesign (code : Str) (format : Str) : List Str :=
  [320, 768, 1280].foldl
    (fun issues width =>
      let issues :=
        if format = fmtReactMui &&
           !includesB (lit "breakpoints.down('sm')") code && width ≤ 768 then
          issues ++ [lit "Layout may not adapt correctly for mobile (width=" ++
                     natStr width ++ lit "px). Add sm breakpoint handling."]
        else issues
      let issues :=
        if format = fmtReactNative &&
           !includesB (lit "Dimensions.get('window').width < " ++ natStr width) code then
          issues ++ [lit "Layout may not scale for width=" ++ natStr width ++
                     lit "px. Use Dimensions for dynamic sizing."]
        else issues
      let issues :=
        if format = fmtFlutter &&
           !includesB (lit "screenWidth < " ++ natStr width) code then
          issues ++ [lit "Layout may not adjust for width=" ++ natStr width ++
                     lit "px. Use MediaQuery for responsive design."]
        else issues
      issues)
    []

/-- The error the caller of `generateReactCode` sees when the attempt
budget runs out: the `while` loop's throw is re-thrown by the surrounding
`catch` as this configuration error (lines 521-526). -/
def azureTerminalErrorMsg : Str :=
  lit "Failed to generate code. Please check your Azure OpenAI configuration and try again."

/-- One iteration's generated-and-preprocessed code.  The LLM is an oracle
indexed by the invocation count (the prompt strings, refined between
attempts by `refinePrompt`, feed only this opaque call and are not
reproduced). -/
def azureAttempt (llm : Nat → Str) (codeFormat : Str) (k : Nat) : Str :=
  let code := llm k
  if codeFormat = fmtReactMui then azPreprocessCodeForReactLive code
  else if codeFormat = fmtReactNative then azPreprocessReactNativeCode code
  else if codeFormat = fmtFlutter then azPreprocessFlutterCode code
  else code

/-- Does attempt `k` pass both validations (line 512)? -/
def azureAttemptOK (llm : Nat → Str) (codeFormat : Str) (k : Nat) : Bool :=
  let code := azureAttempt llm codeFormat k
  (validateCode code codeFormat).valid &&
  (validateResponsiveDesign code codeFormat).isEmpty

/-- The `while (attempts < maxAttempts)` loop (lines 466-519), with
`remaining = maxAttempts - attempts` as structural fuel. -/
def azureGenLoop (llm : Nat → Str) (codeFormat : Str) :
    Nat → Nat → Except Str Str × Nat
  | 0, attempts => (.error azureTerminalErrorMsg, attempts)
  | remaining + 1, attempts =>
    let code := azureAttempt llm codeFormat attempts
    if azureAttemptOK llm codeFormat attempts then (.ok code, attempts + 1)
    else azureGenLoop llm codeFormat remaining (attempts + 1)

def azureMaxAttempts : Nat := 2

/-- `EnhancedAzureOpenAIService.generateReactCode` (lines 383-527),
returning the produced code (or the terminal error) paired with the number
of LLM invocations made. -/
def azureGenerateReactCode (llm : Nat → Str) (codeFormat : Str) :
    Except Str Str × Nat :=
  azureGenLoop llm codeFormat azureMaxAttempts 0


/-!
## The Flutter preview adapter and `initializePreview` (`LivePreview.tsx`)
-/

def hexDigitU (n : Nat) : Char :=
  if n < 10 then Char.ofNat (48 + n) else Char.ofNat (55 + n)

/-- UTF-8 bytes of a code point. -/
def utf8Bytes (n : Nat) : List Nat :=
  if n < 0x80 then [n]
  else if n < 0x800 then [0xc0 + n / 64, 0x80 + n % 64]
  else if n < 0x10000 then [0xe0 + n / 4096, 0x80 + n / 64 % 64, 0x80 + n % 64]
  else [0xf0 + n / 262144, 0x80 + n / 4096 % 64, 0x80 + n / 64 % 64, 0x80 + n % 64]

/-- Characters `encodeURIComponent` leaves unescaped. -/
def uriUnreserved (c : Char) : Bool :=
  isAsciiAlnum c || c = '-' || c = '_' || c = '.' || c = '!' || c = '~' ||
  c = '*' || c = '\'' || c = '(' || c = ')'

def pctByte (b : Nat) : Str := ['%', hexDigitU (b / 16), hexDigitU (b % 16)]

def encChar (c : Char) : Str :=
  if uriUnreserved c then [c] else (utf8Bytes c.toNat).flatMap pctByte

/-- JS `encodeURIComponent` (characters are percent-encoded per UTF-8
byte; Lean `Char` has no lone surrogates, which are the only inputs on
which `encodeURIComponent` throws). -/
def encodeURIComponent (s : Str) : Str := s.flatMap encChar

/-- The match attempt of
`/class\s+(\w+)\s+extends\s+(?:StatelessWidget|StatefulWidget)/`
(line 46) at the head of `t`, returning the widget-name capture.  Every
quantifier is followed by a disjoint requirement, so maximal munch is the
only candidate. -/
def widgetMatchAt (t : Str) : Option Str :=
  if (lit "class").isPrefixOf t then
    let r := t.drop 5
    let w := r.takeWhile isJsWs
    if w.isEmpty then none
    else
      let r := r.drop w.length
      let name := r.takeWhile isWordChar
      if name.isEmpty then none
      else
        let r2 := r.drop name.length
        let w2 := r2.takeWhile isJsWs
        if w2.isEmpty then none
        else
          let r2 := r2.drop w2.length
          if (lit "extends").isPrefixOf r2 then
            let r3 := r2.drop 7
            let w3 := r3.takeWhile isJsWs
            if w3.isEmpty then none
            else
              let r3 := r3.drop w3.length
              if (lit "StatelessWidget").isPrefixOf r3 ||
                 (lit "StatefulWidget").isPrefixOf r3 then some name
              else none
          else none
  else none

def widgetMatchScan : Nat → Str → Option Str
  | 0, _ => none
  | fuel + 1, t =>
    match widgetMatchAt t with
    | some name => some name
    | none =>
      match t with
      | [] => none
      | _ :: rest => widgetMatchScan fuel rest

/-- `cleanCode.match(/class\s+(\w+)\s+extends\s+.../)`: first match's
capture. -/
def widgetMatchFirst (s : Str) : Option Str := widgetMatchScan (s.length + 1) s

/-- The hardcoded short placeholder Flutter app (lines 57-92). -/
def simpleFlutterApp : Str :=
  lit "import 'package:flutter/material.dart';\nvoid main() \x7b\n  runApp(const MyApp());\n\x7d\nclass MyApp extends StatelessWidget \x7b\n  const MyApp(\x7bsuper.key\x7d);\n  @override\n  Widget build(BuildContext context) \x7b\n    return MaterialApp(\n      title: 'Flutter Preview',\n      theme: ThemeData(primarySwatch: Colors.blue),\n      home: Scaffold(\n        appBar: AppBar(title: const Text('Flutter Preview'), backgroundColor: Colors.blue),\n        body: const Center(\n          child: Column(\n            mainAxisAlignment: MainAxisAlignment.center,\n            children: [\n              Icon(Icons.flutter_dash, size: 100, color: Colors.blue),\n              SizedBox(height: 20),\n              Text('Flutter Preview', style: TextStyle(fontSize: 24, fontWeight: FontWeight.bold)),\n              SizedBox(height: 10),\n              Padding(\n                padding: EdgeInsets.all(16.0),\n                child: Text(\n                  'Code was too complex for direct preview. Please copy the code to your local Flutter environment.',\n                  textAlign: TextAlign.center,\n                  style: TextStyle(fontSize: 16),\n                ),\n              ),\n            ],\n          ),\n        ),\n      ),\n    );\n  \x7d\n\x7d"

/-- The cleanup `createDartPadUrl` applies before measuring the encoded
length (lines 40-51): trim, strip dart fences, ensure the Material import,
ensure a `main()` entry point. -/
def cleanDartCode (flutterCode : Str) : Str :=
  let cleanCode := trimJs flutterCode
  let cleanCode := trimJs (rxRepl dartFenceRx [] true cleanCode)
  let cleanCode :=
    if !includesB (lit "import 'package:flutter/material.dart'") cleanCode then
      lit "import 'package:flutter/material.dart';\n\n" ++ cleanCode
    else cleanCode
  if !includesB (lit "void main()") cleanCode then
    let widgetName := (widgetMatchFirst cleanCode).getD (lit "MyApp")
    if !includesB (lit "runApp(") cleanCode then
      cleanCode ++ lit "\n\nvoid main() \x7b\n  runApp(const " ++ widgetName ++
      lit "());\n\x7d"
    else cleanCode
  else cleanCode

def dartPadUrlPrefix : Str := lit "https://dartpad.dev/?source="

def dartPadUrlSuffix : Str := lit "&theme=dark&run=true&null_safety=true"

def dartPadMaxUrlLength : Nat := 7000

/-- The URL returned when the encoded code exceeds the budget. -/
def dartPadPlaceholderUrl : Str :=
  dartPadUrlPrefix ++ encodeURIComponent simpleFlutterApp ++ dartPadUrlSuffix

/-- `createDartPadUrl` (LivePreview.tsx lines 38-99). -/
def createDartPadUrl (flutterCode : Str) : Str :=
  let encodedCode := encodeURIComponent (cleanDartCode flutterCode)
  if encodedCode.length ≤ dartPadMaxUrlLength then
    dartPadUrlPrefix ++ encodedCode ++ dartPadUrlSuffix
  else dartPadPlaceholderUrl

/-- `initializePreview` (LivePreview.tsx lines 394-426).  The two
network-backed URL builders (`createCodeSandboxUrl`, `createSnackUrl`) are
oracle parameters; `createDartPadUrl` is pure and embedded above.  A thrown
error caught by the surrounding `catch` and stored in the error state is
modelled as `Except.error` with the thrown message. -/
def initializePreviewModel (sandboxUrl snackUrl : Str → Str)
    (code codeFormat : Str) : Except Str Str :=
  if (trimJs code).isEmpty then .error (lit "No code provided for preview")
  else if codeFormat = fmtReactMui then
    let url := sandboxUrl (prepareCodeForPreview codeFormat code)
    if url.isEmpty then .error (lit "Failed to create preview URL") else .ok url
  else if codeFormat = fmtReactNative then
    let url := snackUrl (prepareCodeForPreview codeFormat code)
    if url.isEmpty then .error (lit "Failed to create preview URL") else .ok url
  else if codeFormat = fmtFlutter then
    let url := createDartPadUrl (prepareCodeForPreview codeFormat code)
    if url.isEmpty then .error (lit "Failed to create preview URL") else .ok url
  else .error (lit "Unsupported code format: " ++ codeFormat)

/-!
## `App.tsx` — the batch generation loop `generateAllCodes`
-/

/-- The per-image state of `App.tsx` (interface `ImageData`, lines 12-19).
The `file` and `preview` fields are browser objects the generation loop
never changes and are omitted. -/
structure ImageData where
  id : Str
  description : Str
  code : Str
  isGenerating : Bool
deriving DecidableEq

/-- The `for` loop of `generateAllCodes` (App.tsx lines 203-227): one
awaited generation per described image, with the `try`/`catch` inside the
loop body.  `gen` is the oracle for
`enhancedAzureOpenAIService.generateReactCode` (an `Except.error` is a
thrown error); on success the image's code is set and its flag cleared, on
failure only the flag is cleared, and either way the loop continues.
State updates go through `setImages(prev => prev.map(...))`, keyed by image
id.  Notifications and the progress bar are UI side effects outside the
images state. -/
def genAllLoop (gen : ImageData → Except Str Str) :
    List ImageData → List ImageData → List ImageData
  | [], st => st
  | img :: rest, st =>
    match gen img with
    | .ok code =>
      genAllLoop gen rest
        (st.map (fun i =>
          if i.id = img.id then { i with code := code, isGenerating := false } else i))
    | .error _ =>
      genAllLoop gen rest
        (st.map (fun i =>
          if i.id = img.id then { i with isGenerating := false } else i))

/-- `generateAllCodes` (App.tsx lines 194-230): images without a
description are filtered out of `validImages` up front; if none remain the
function returns early; otherwise every image is reset to
`{ code: '', isGenerating: true }` and the loop runs over `validImages`. -/
def generateAllCodes (gen : ImageData → Except Str Str)
    (images : List ImageData) : List ImageData :=
  let validImages := images.filter (fun img => !img.description.isEmpty)
  if validImages.isEmpty then images
  else
    genAllLoop gen validImages
      (images.map (fun img => { img with code := [], isGenerating := true }))

/-!
## Notation-free predicates and concrete example inputs
-/

/-- `s` contains no backtick. -/
def noTick (s : Str) : Prop := ∀ c ∈ s, c ≠ btChar

instance (s : Str) : Decidable (noTick s) :=
  List.decidableBAll (fun c => c ≠ btChar) s

/-- Raw model output wrapped in a markdown fence tagged `jsx` whose content
holds a JS template literal (two single backticks). -/
def fencedTemplateInput : Str :=
  tick3 ++ lit "jsx\nconst s = " ++ [btChar] ++ lit "hi" ++ [btChar] ++
  lit ";\n" ++ tick3

/-- Raw react-mui text with two `export default` statements embedded
mid-line. -/
def inlineDoubleExportInput : Str :=
  lit "const x = 1; export default App; const y = 2; export default App; function App() \x7b return <div/>; \x7d"

/-- Raw react-mui text with two `export default` statements, each on its
own line. -/
def fullLineDoubleExportInput : Str :=
  lit "function App() \x7b return <div/>; \x7d\nexport default App;\nexport default App;"

/-- Raw react-mui text that already contains two
`export default GeneratedComponent;` statements. -/
def duplicatedExportInput : Str :=
  lit "const GeneratedComponent = () => <div/>;\nexport default GeneratedComponent;\nexport default GeneratedComponent;"

/-- A short Dart preamble that already contains the Material import and a
`void main()` entry point. -/
def dartPreamble : Str :=
  lit "import 'package:flutter/material.dart';\nvoid main() \x7b\x7d\n"

/-- A Dart source whose URL-encoded form exceeds the 7000-character budget
(75 + 6900 + 3·20 = 7035) while its cleaned form (the trailing spaces
trimmed away) encodes to 6975 ≤ 7000 characters. -/
def oversizedRawDartInput : Str :=
  dartPreamble ++ List.replicate 6900 'a' ++ List.replicate 20 ' '

/-- A Dart source that stays oversized even after cleaning
(75 + 7000 = 7075 > 7000 encoded characters). -/
def oversizedCleanDartInput : Str :=
  dartPreamble ++ List.replicate 7000 'a'

/-- An LLM response that preprocesses into a react-mui component without
responsive breakpoints, so that validation fails on every attempt. -/
def noBreakpointsResponse : Str :=
  lit "const GeneratedComponent = () => \x7b return <div aria-label=\"x\">hi</div>; \x7d;\nexport default GeneratedComponent;"

/-- Three uploaded images: two with descriptions (the first of which will
fail generation) and one without a description. -/
def exImages : List ImageData :=
  [{ id := lit "b", description := lit "db", code := lit "old", isGenerating := false },
   { id := lit "a", description := lit "da", code := lit "old", isGenerating := false },
   { id := lit "c", description := [], code := lit "old", isGenerating := false }]

/-- A generation oracle that throws for image `b` and succeeds otherwise. -/
def exGen : ImageData → Except Str Str := fun i =>
  if i.id = lit "b" then .error (lit "boom") else .ok (lit "CODE")

/-!
## Lemmas about the string model
-/

theorem includesB_iff_sub {p s : Str} : includesB p s = true ↔ p <:+: s := by
  induction s with
  | nil => simp [includesB, List.isEmpty_iff, List.infix_nil]
  | cons c rest ih =>
    simp [includesB, List.infix_cons_iff, ih, List.isPrefixOf_iff_prefix]

theorem includesB_of_sub {p s : Str} (h : p <:+: s) : includesB p s = true :=
  includesB_iff_sub.mpr h

theorem includesB_append_right {p b : Str} (a : Str) (h : includesB p b = true) :
    includesB p (a ++ b) = true :=
  includesB_of_sub ((includesB_iff_sub.mp h).trans (List.suffix_append a b).isInfix)

theorem includesB_append_left {p a : Str} (b : Str) (h : includesB p a = true) :
    includesB p (a ++ b) = true :=
  includesB_of_sub ((includesB_iff_sub.mp h).trans (List.prefix_append a b).isInfix)

theorem dropWhile_eq_self_of_head {f : Char → Bool} {s : Str}
    (h : ∀ c, s.head? = some c → f c = false) : s.dropWhile f = s := by
  cases s with
  | nil => rfl
  | cons c rest => simp [List.dropWhile_cons, h c rfl]

theorem trimStart_eq_self {s : Str}
    (h : ∀ c, s.head? = some c → isJsWs c = false) : trimStart s = s :=
  dropWhile_eq_self_of_head h

theorem trimEnd_eq_self {s : Str}
    (h : ∀ c, s.getLast? = some c → isJsWs c = false) : trimEnd s = s := by
  unfold trimEnd
  rw [dropWhile_eq_self_of_head, List.reverse_reverse]
  intro c hc
  exact h c (by rwa [List.head?_reverse] at hc)

theorem trimJs_eq_self {s : Str}
    (h1 : ∀ c, s.head? = some c → isJsWs c = false)
    (h2 : ∀ c, s.getLast? = some c → isJsWs c = false) : trimJs s = s := by
  unfold trimJs
  rw [trimStart_eq_self h1, trimEnd_eq_self h2]

theorem dropWhile_idem {f : Char → Bool} {s : Str} :
    (s.dropWhile f).dropWhile f = s.dropWhile f := by
  induction s with
  | nil => rfl
  | cons c rest ih =>
    by_cases h : f c = true
    · simp [List.dropWhile_cons, h, ih]
    · simp only [Bool.not_eq_true] at h
      simp [List.dropWhile_cons, h]

theorem head?_of_pref {p u : Str} (h : p <+: u) (hne : p ≠ []) :
    u.head? = p.head? := by
  obtain ⟨t, rfl⟩ := h
  cases p with
  | nil => exact absurd rfl hne
  | cons c r => rfl

theorem trimEnd_pref (u : Str) : trimEnd u <+: u := by
  have h : (u.reverse.dropWhile isJsWs) <:+ u.reverse := List.dropWhile_suffix _
  apply List.reverse_suffix.mp
  simpa [trimEnd] using h

theorem head?_dropWhile {f : Char → Bool} {s : Str} {c : Char}
    (h : (s.dropWhile f).head? = some c) : f c = false := by
  induction s with
  | nil => simp [List.dropWhile] at h
  | cons d rest ih =>
    by_cases hd : f d = true
    · exact ih (by simpa [List.dropWhile_cons, hd] using h)
    · simp only [Bool.not_eq_true] at hd
      rw [List.dropWhile_cons, hd] at h
      simp only [Bool.false_eq_true, if_false, List.head?_cons, Option.some.injEq] at h
      rw [← h]
      exact hd

theorem trimEnd_idem (u : Str) : trimEnd (trimEnd u) = trimEnd u := by
  unfold trimEnd
  rw [List.reverse_reverse, dropWhile_idem]

theorem trimJs_idem (s : Str) : trimJs (trimJs s) = trimJs s := by
  have h1 : trimStart (trimJs s) = trimJs s := by
    apply trimStart_eq_self
    intro c hc
    have hne : trimJs s ≠ [] := by
      intro he
      rw [he] at hc
      simp at hc
    have hh : (trimStart s).head? = (trimJs s).head? :=
      head?_of_pref (trimEnd_pref (trimStart s)) hne
    have hc2 : (List.dropWhile isJsWs s).head? = some c := by
      rw [show List.dropWhile isJsWs s = trimStart s from rfl, hh]
      exact hc
    exact head?_dropWhile hc2
  show trimEnd (trimStart (trimJs s)) = trimJs s
  rw [h1]
  exact trimEnd_idem _

theorem infix_dropWhile {q s : Str} {f : Char → Bool}
    (hq : ∀ c, q.head? = some c → f c = false) (hne : q ≠ [])
    (h : q <:+: s) : q <:+: s.dropWhile f := by
  induction s with
  | nil => rw [List.infix_nil] at h; exact absurd h hne
  | cons d rest ih =>
    by_cases hd : f d = true
    · rw [List.dropWhile_cons, if_pos hd]
      rcases List.infix_cons_iff.mp h with hpre | hinf
      · obtain ⟨t, ht⟩ := hpre
        cases q with
        | nil => exact absurd rfl hne
        | cons c r =>
          have hcd : c = d := by injection ht
          have hfd : f d = false := hcd ▸ hq c rfl
          rw [hfd] at hd
          exact absurd hd (by simp)
      · exact ih hinf
    · simp only [Bool.not_eq_true] at hd
      rw [List.dropWhile_cons, hd]
      simpa using h

theorem includesB_trimJs {p s : Str} (hne : p ≠ [])
    (h1 : ∀ c, p.head? = some c → isJsWs c = false)
    (h2 : ∀ c, p.getLast? = some c → isJsWs c = false)
    (h : includesB p s = true) : includesB p (trimJs s) = true := by
  apply includesB_of_sub
  have step1 : p <:+: trimStart s :=
    infix_dropWhile h1 hne (includesB_iff_sub.mp h)
  have hrev : p.reverse <:+: (trimStart s).reverse := by
    rw [List.reverse_infix]; exact step1
  have step2 : p.reverse <:+: (trimStart s).reverse.dropWhile isJsWs := by
    apply infix_dropWhile _ (by simpa using hne) hrev
    intro c hc
    exact h2 c (by rwa [List.head?_reverse] at hc)
  show p <:+: trimEnd (trimStart s)
  have hr : p.reverse <:+: (trimEnd (trimStart s)).reverse := by
    simpa [trimEnd] using step2
  exact List.reverse_infix.mp hr

/-!
## Backtick-free text passes through the fence strippers unchanged
-/

theorem noTick_cons {c : Char} {rest : Str} (h : noTick (c :: rest)) :
    noTick rest := fun d hd => h d (List.mem_cons_of_mem _ hd)

theorem not_tick3_pref {t : Str} (h : noTick t) : tick3.isPrefixOf t = false := by
  cases t with
  | nil => rfl
  | cons c rest =>
    have hc : c ≠ btChar := h c (List.mem_cons_self _ _)
    simp [tick3, List.isPrefixOf]
    intro he
    exact absurd he.symm hc

theorem matchSeq_lit_cons {p : Str} {ps : List RxPiece} {t : Str} :
    matchSeq (.lit p :: ps) t =
      if p.isPrefixOf t then matchSeq ps (t.drop p.length) else none := by
  by_cases h : p.isPrefixOf t
  · simp only [matchSeq, pieceOpts, h, if_true]
    cases h2 : matchSeq ps (t.drop p.length) <;> simp [List.findSome?, h2]
  · simp [matchSeq, pieceOpts, h]

theorem rxMatchLen_eq_none_of_all_tick {rx : Rx}
    (halts : ∀ ps ∈ rx.alts, ∃ ps', ps = .lit tick3 :: ps') {t : Str}
    (h : tick3.isPrefixOf t = false) : rxMatchLen rx t = none := by
  unfold rxMatchLen
  rw [List.findSome?_eq_none_iff]
  intro ps hps
  obtain ⟨ps', rfl⟩ := halts ps hps
  rw [matchSeq_lit_cons, h]
  simp

theorem dartFence_noMatch {t : Str} (h : noTick t) :
    rxMatchLen dartFenceRx t = none := by
  apply rxMatchLen_eq_none_of_all_tick _ (not_tick3_pref h)
  intro ps hps
  simp [dartFenceRx] at hps
  rcases hps with h1 | h1 <;> exact ⟨_, h1⟩

theorem fence252_noMatch {t : Str} (h : noTick t) :
    rxMatchLen fence252Rx t = none := by
  apply rxMatchLen_eq_none_of_all_tick _ (not_tick3_pref h)
  intro ps hps
  simp [fence252Rx] at hps
  rcases hps with h1 | h1 <;> exact ⟨_, h1⟩

theorem rxReplAux_eq_self {rx : Rx} {repl : Str} {g : Bool}
    (Hm : ∀ t : Str, noTick t → rxMatchLen rx t = none) :
    ∀ (fuel : Nat) (prev : Option Char) (t : Str), noTick t →
      rxReplAux rx repl g fuel prev t = t := by
  intro fuel
  induction fuel with
  | zero => intro prev t _; rfl
  | succ n ih =>
    intro prev t ht
    cases t with
    | nil => rfl
    | cons c rest =>
      have hrest : noTick rest := noTick_cons ht
      show rxReplAux rx repl g (n + 1) prev (c :: rest) = c :: rest
      rw [rxReplAux]
      by_cases hp : posOK rx prev = true
      · rw [if_pos hp, Hm _ ht]
        simp [ih (some c) rest hrest]
      · rw [if_neg hp]
        simp [ih (some c) rest hrest]

theorem rxRepl_eq_self {rx : Rx} {repl : Str} {g : Bool}
    (Hm : ∀ t : Str, noTick t → rxMatchLen rx t = none) {s : Str}
    (h : noTick s) : rxRepl rx repl g s = s :=
  rxReplAux_eq_self Hm _ none s h

theorem noTick_append {a b : Str} (ha : noTick a) (hb : noTick b) :
    noTick (a ++ b) := by
  intro c hc
  rcases List.mem_append.mp hc with h | h
  · exact ha c h
  · exact hb c h

theorem noTick_of_infix {a s : Str} (hs : noTick s) (h : a <:+: s) : noTick a :=
  fun c hc => hs c (h.subset hc)

theorem noTick_trimStart {s : Str} (h : noTick s) : noTick (trimStart s) :=
  noTick_of_infix h (List.dropWhile_suffix _).isInfix

theorem noTick_trimEnd {s : Str} (h : noTick s) : noTick (trimEnd s) :=
  noTick_of_infix h (trimEnd_pref s).isInfix

theorem noTick_trimJs {s : Str} (h : noTick s) : noTick (trimJs s) :=
  noTick_trimEnd (noTick_trimStart h)

/-- For backtick-free input with non-blank content, the flutter branch of
`prepareCodeForPreview` reduces to `trim`: the fence strippers find nothing
and the flutter branch neither inspects nor extends the code. -/
theorem prepareCodeForPreview_flutter_eq_trim {x : Str} (h1 : noTick x)
    (h2 : trimJs x ≠ []) :
    prepareCodeForPreview fmtFlutter x = trimJs x := by
  unfold prepareCodeForPreview
  rw [if_neg (by simp [List.isEmpty_iff, h2])]
  have hfix : fixImportStatements (trimJs x) fmtFlutter = trimJs x := by
    unfold fixImportStatements
    rw [if_pos rfl, trimJs_idem,
        rxRepl_eq_self (fun t ht => dartFence_noMatch ht) (noTick_trimJs h1),
        trimJs_idem]
  simp only [hfix,
    rxRepl_eq_self (fun t ht => fence252_noMatch ht) (noTick_trimJs h1),
    trimJs_idem, if_pos rfl]
  simp

theorem includesB_ensure {pat q suffix : Str} (hs : includesB pat suffix = true) :
    includesB pat (if includesB pat q then q else q ++ suffix) = true := by
  by_cases h : includesB pat q = true
  · simpa [h]
  · simp only [h, Bool.false_eq_true, if_false]
    exact includesB_append_right q hs

theorem rn_branch_contains (q : Str) :
    includesB (lit "export default App")
      (if includesB (lit "export default App") q then q
       else
         if (includesB (lit "function App") q || includesB (lit "const App =") q) then
           q ++ lit "\n\nexport default App;"
         else
           lit "function App() \x7b\n  return (\n    " ++ q ++
           lit "\n  );\n\x7d\n\nexport default App;") = true := by
  by_cases h1 : includesB (lit "export default App") q = true
  · simpa [h1]
  · simp only [h1, Bool.false_eq_true, if_false]
    by_cases h2 :
        (includesB (lit "function App") q || includesB (lit "const App =") q) = true
    · simp only [h2, if_true]
      exact includesB_append_right q (by decide)
    · simp only [h2, Bool.false_eq_true, if_false]
      exact includesB_append_right _ (by decide)

theorem azure_branch_contains (c : Str) :
    includesB (lit "export default GeneratedComponent")
      (if !includesB (lit "export default GeneratedComponent") c then
        if includesB (lit "const GeneratedComponent") c then
          trimJs (rxRepl azTrailingExportRx [] true c) ++
          lit "\n\nexport default GeneratedComponent;"
        else azFallbackReactComponent
      else c) = true := by
  by_cases h1 : includesB (lit "export default GeneratedComponent") c = true
  · simpa [h1]
  · simp only [h1, Bool.not_false, if_true]
    by_cases h2 : includesB (lit "const GeneratedComponent") c = true
    · simp only [h2, if_true]
      exact includesB_append_right _ (by decide)
    · simp only [h2, Bool.false_eq_true, if_false]
      unfold azFallbackReactComponent
      exact includesB_append_right _ (by decide)

/-!
## Pattern occurrences survive the blank-line cleanup `/\n\s*\n+/g`

The cleanup regex only matches whitespace runs that start with a newline,
so an occurrence of a pattern that begins with a non-whitespace character
and contains no newline is never touched by a replacement.
-/

theorem mem_take_takeWhile {f : Char → Bool} {u : Str} {k : Nat} {c : Char}
    (hk : k ≤ (u.takeWhile f).length) (hc : c ∈ u.take k) : f c = true := by
  obtain ⟨t, ht⟩ := List.takeWhile_prefix (l := u) f
  have : u.take k = (u.takeWhile f).take k := by
    conv_lhs => rw [← ht]
    rw [List.take_append_eq_append_take, Nat.sub_eq_zero_of_le hk, List.take_zero,
      List.append_nil]
  rw [this] at hc
  exact List.mem_takeWhile_imp (List.take_subset _ _ hc)

theorem matchSeq_blankLines_tail {u rest : Str}
    (h : matchSeq [.starG isJsWs, .plusG (fun c => c = '\n')] u = some rest) :
    ∃ k j, k ≤ (u.takeWhile isJsWs).length ∧ 1 ≤ j ∧
      j ≤ ((u.drop k).takeWhile (fun c => c = '\n')).length ∧
      rest = (u.drop k).drop j := by
  rw [show matchSeq [.starG isJsWs, .plusG (fun c => c = '\n')] u =
      (pieceOpts (.starG isJsWs) u).findSome?
        (fun a => matchSeq [.plusG (fun c => c = '\n')] a) from rfl] at h
  obtain ⟨a, ha, hma⟩ := List.exists_of_findSome?_eq_some h
  simp only [pieceOpts, List.mem_map, List.mem_reverse, List.mem_range] at ha
  obtain ⟨k, hk, rfl⟩ := ha
  refine ⟨k, ?_⟩
  rw [show matchSeq [.plusG (fun c => c = '\n')] (u.drop k) =
      (pieceOpts (.plusG (fun c => c = '\n')) (u.drop k)).findSome?
        (fun a => matchSeq [] a) from rfl] at hma
  simp only [pieceOpts, matchSeq] at hma
  generalize hr : ((u.drop k).takeWhile (fun c : Char => c = '\n')).length = r at hma ⊢
  cases r with
  | zero => simp [List.findSome?] at hma
  | succ j' =>
    rw [List.range_succ, List.reverse_append] at hma
    simp only [List.reverse_cons, List.reverse_nil, List.nil_append,
      List.map_cons, List.findSome?_cons, List.singleton_append] at hma
    refine ⟨j' + 1, by omega, by omega, by omega, ?_⟩
    injection hma with hma
    exact hma.symm

theorem rxMatchLen_blankLines {t : Str} {m : Nat}
    (h : rxMatchLen blankLinesRx t = some m) :
    t.head? = some '\n' ∧ 1 ≤ m ∧ m ≤ t.length ∧
      ∀ c ∈ t.take m, isJsWs c = true := by
  unfold rxMatchLen blankLinesRx at h
  rw [List.findSome?_cons] at h
  rcases h0 : matchSeq [.cls1 (fun c => c = '\n'), .starG isJsWs,
      .plusG (fun c => c = '\n')] t with _ | rest
  · rw [h0] at h
    simp [List.findSome?] at h
  · rw [h0] at h
    simp only [Option.map_some'] at h
    have hm : m = t.length - rest.length := by
      have h2 : some (t.length - rest.length) = some m := h
      injection h2 with h2
      omega
    cases t with
    | nil =>
      exfalso
      rw [show matchSeq [.cls1 (fun c => c = '\n'), .starG isJsWs,
          .plusG (fun c => c = '\n')] ([] : Str) =
          (pieceOpts (.cls1 (fun c => c = '\n')) []).findSome?
            (fun a => matchSeq [.starG isJsWs, .plusG (fun c => c = '\n')] a)
          from rfl] at h0
      simp [pieceOpts, List.findSome?] at h0
    | cons c u =>
      rw [show matchSeq [.cls1 (fun c => c = '\n'), .starG isJsWs,
            .plusG (fun c => c = '\n')] (c :: u) =
          (pieceOpts (.cls1 (fun c => c = '\n')) (c :: u)).findSome?
            (fun a => matchSeq [.starG isJsWs, .plusG (fun c => c = '\n')] a)
          from rfl] at h0
      by_cases hc : c = '\n'
      · subst hc
        rw [show pieceOpts (.cls1 (fun c => c = '\n')) ('\n' :: u) = [u] by
          simp [pieceOpts]] at h0
        rw [List.findSome?_cons] at h0
        rcases h1 : matchSeq [.starG isJsWs, .plusG (fun c => c = '\n')] u with
          _ | rest'
        · rw [h1] at h0
          simp [List.findSome?] at h0
        · rw [h1] at h0
          have hre : rest' = rest := by
            have : some rest' = some rest := h0
            injection this
          subst hre
          obtain ⟨k, j, hk, hj1, hj2, hrst⟩ := matchSeq_blankLines_tail h1
          have hkl : k ≤ u.length :=
            le_trans hk (List.takeWhile_prefix _).length_le
          have hjl : j ≤ u.length - k := by
            have h3 : ((u.drop k).takeWhile (fun c : Char => c = '\n')).length ≤
                (u.drop k).length := (List.takeWhile_prefix _).length_le
            rw [List.length_drop] at h3
            omega
          have hlen : rest'.length = u.length - k - j := by
            rw [hrst]
            simp only [List.length_drop]
          have hmval : m = 1 + k + j := by
            rw [hm, hlen]
            simp [List.length_cons]
            omega
          refine ⟨rfl, by omega, by simp [List.length_cons]; omega, ?_⟩
          intro d hd
          rw [hmval, show 1 + k + j = (k + j) + 1 by omega,
            List.take_succ_cons] at hd
          rcases List.mem_cons.mp hd with rfl | hd2
          · decide
          · rw [List.take_add] at hd2
            rcases List.mem_append.mp hd2 with h3 | h3
            · exact mem_take_takeWhile hk h3
            · have h4 := mem_take_takeWhile hj2 h3
              simp only [decide_eq_true_eq] at h4
              subst h4
              decide
      · rw [show pieceOpts (.cls1 (fun c => c = '\n')) (c :: u) = [] by
          simp [pieceOpts, hc]] at h0
        simp [List.findSome?] at h0

theorem blankLines_noMatch {t : Str} (h : t.head? ≠ some '\n') :
    rxMatchLen blankLinesRx t = none := by
  rcases h0 : rxMatchLen blankLinesRx t with _ | m
  · rfl
  · exact absurd (rxMatchLen_blankLines h0).1 h

theorem posOK_free {rx : Rx} (ha : rx.anchored = false)
    (hl : rx.leftWord = false) (prev : Option Char) : posOK rx prev = true := by
  simp [posOK, ha, hl]

theorem rxReplAux_prev_irrel {rx : Rx} (ha : rx.anchored = false)
    (hl : rx.leftWord = false) (repl : Str) (g : Bool) :
    ∀ (fuel : Nat) (prev prev' : Option Char) (t : Str),
      rxReplAux rx repl g fuel prev t = rxReplAux rx repl g fuel prev' t := by
  intro fuel
  induction fuel with
  | zero => intro _ _ _; rfl
  | succ n _ =>
    intro prev prev' t
    cases t with
    | nil => rfl
    | cons c rest =>
      show rxReplAux rx repl g (n + 1) prev (c :: rest) =
        rxReplAux rx repl g (n + 1) prev' (c :: rest)
      rw [rxReplAux, rxReplAux, if_pos (posOK_free ha hl prev),
        if_pos (posOK_free ha hl prev')]

theorem rxReplAux_copy {rx : Rx} (ha : rx.anchored = false)
    (hl : rx.leftWord = false) (repl : Str) (g : Bool) :
    ∀ (u w : Str), (∀ i, i < u.length → rxMatchLen rx (u.drop i ++ w) = none) →
      ∀ (fuel : Nat) (prev : Option Char),
        rxReplAux rx repl g fuel prev (u ++ w) =
          u ++ rxReplAux rx repl g (fuel - u.length) prev w := by
  intro u
  induction u with
  | nil => intro w _ fuel prev; simp
  | cons c u' ih =>
    intro w hu fuel prev
    cases fuel with
    | zero =>
      show (c :: u') ++ w = (c :: u') ++ rxReplAux rx repl g (0 - (u'.length + 1)) prev w
      rw [Nat.zero_sub]
      rfl
    | succ n =>
      show rxReplAux rx repl g (n + 1) prev (c :: (u' ++ w)) =
        (c :: u') ++ rxReplAux rx repl g (n + 1 - (c :: u').length) prev w
      rw [rxReplAux, if_pos (posOK_free ha hl prev)]
      have h0 : rxMatchLen rx (c :: (u' ++ w)) = none := by
        have h1 := hu 0 (by simp)
        simpa using h1
      rw [h0]
      simp only []
      have hu' : ∀ i, i < u'.length → rxMatchLen rx (u'.drop i ++ w) = none := by
        intro i hi
        have := hu (i + 1) (by simp; omega)
        simpa using this
      rw [ih w hu' n (some c)]
      rw [rxReplAux_prev_irrel ha hl repl g (n - u'.length) (some c) prev]
      simp [List.length_cons]

theorem includesB_drop_of_no_pref {p : Str} :
    ∀ (m : Nat) (t : Str), includesB p t = true →
      (∀ i, i < m → p.isPrefixOf (t.drop i) = false) →
      includesB p (t.drop m) = true := by
  intro m
  induction m with
  | zero => intro t h _; simpa using h
  | succ n ih =>
    intro t h hpos
    cases t with
    | nil => simpa using h
    | cons c rest =>
      rw [show (c :: rest).drop (n + 1) = rest.drop n from rfl]
      apply ih rest
      · have h' : (p.isPrefixOf (c :: rest) || includesB p rest) = true := h
        rcases (Bool.or_eq_true _ _).mp h' with h1 | h1
        · have h2 := hpos 0 (by omega)
          rw [List.drop_zero] at h2
          rw [h2] at h1
          exact absurd h1 Bool.false_ne_true
        · exact h1
      · intro i hi
        have := hpos (i + 1) (by omega)
        simpa using this

theorem includesB_rxReplAux_blankLines {p : Str} (hne : p ≠ [])
    (hhead : ∀ c, p.head? = some c → isJsWs c = false)
    (hnl : ∀ c ∈ p, ¬(c = '\n')) (r : Str) :
    ∀ (fuel : Nat) (prev : Option Char) (t : Str), includesB p t = true →
      includesB p (rxReplAux blankLinesRx r true fuel prev t) = true := by
  intro fuel
  induction fuel with
  | zero => intro prev t h; exact h
  | succ n ih =>
    intro prev t h
    cases t with
    | nil => exact h
    | cons c rest =>
      show includesB p (rxReplAux blankLinesRx r true (n + 1) prev (c :: rest)) = true
      rw [rxReplAux, if_pos (posOK_free rfl rfl prev)]
      rcases hm : rxMatchLen blankLinesRx (c :: rest) with _ | m
      · show includesB p (c :: rxReplAux blankLinesRx r true n (some c) rest) =
          true
        have h' : (p.isPrefixOf (c :: rest) || includesB p rest) = true := h
        rcases (Bool.or_eq_true _ _).mp h' with h1 | h1
        · cases p with
          | nil => exact absurd rfl hne
          | cons c' p' =>
            obtain ⟨w, hw⟩ := List.isPrefixOf_iff_prefix.mp h1
            have hcc : c' = c := by
              rw [List.cons_append] at hw
              injection hw
            subst hcc
            have hrest : p' ++ w = rest := by
              rw [List.cons_append] at hw
              injection hw
            have hnom : ∀ i, i < p'.length →
                rxMatchLen blankLinesRx (p'.drop i ++ w) = none := by
              intro i hi
              apply blankLines_noMatch
              rcases hd : p'.drop i with _ | ⟨d, rest'⟩
              · exfalso
                have := congrArg List.length hd
                simp [List.length_drop] at this
                omega
              · have hdmem : d ∈ p' := by
                  have hd2 : d ∈ p'.drop i := by
                    rw [hd]; exact List.mem_cons_self _ _
                  exact List.mem_of_mem_drop hd2
                simp only [List.cons_append, List.head?_cons, ne_eq,
                  Option.some.injEq]
                exact hnl d (List.mem_cons_of_mem _ hdmem)
            rw [← hrest,
              rxReplAux_copy rfl rfl r true p' w hnom n (some c')]
            apply includesB_of_sub
            apply List.IsPrefix.isInfix
            exact ⟨rxReplAux blankLinesRx r true (n - p'.length) (some c') w,
              by simp⟩
        · have hrec := ih (some c) rest h1
          simp [includesB, hrec]
      · cases m with
        | zero =>
          exfalso
          have := (rxMatchLen_blankLines hm).2.1
          omega
        | succ k =>
          show includesB p (r ++ rxReplAux blankLinesRx r true n
            ((c :: rest).take (k + 1)).getLast? ((c :: rest).drop (k + 1))) =
            true
          obtain ⟨hh, h1, hlen, hws⟩ := rxMatchLen_blankLines hm
          have hdrop : includesB p ((c :: rest).drop (k + 1)) = true := by
            apply includesB_drop_of_no_pref (k + 1) _ h
            intro i hi
            rcases hp : p.isPrefixOf ((c :: rest).drop i) with _ | _
            · rfl
            · exfalso
              cases p with
              | nil => exact hne rfl
              | cons c' p' =>
                obtain ⟨w, hw⟩ := List.isPrefixOf_iff_prefix.mp hp
                have hget : (c :: rest)[i]? = some c' := by
                  rw [← List.head?_drop, ← hw]
                  simp
                have hmem : c' ∈ (c :: rest).take (k + 1) := by
                  refine List.mem_iff_getElem?.mpr ⟨i, ?_⟩
                  rwa [List.getElem?_take_of_lt hi]
                have hws' := hws c' hmem
                rw [hhead c' rfl] at hws'
                exact absurd hws' (by simp)
          apply includesB_append_right
          exact ih _ _ hdrop

end Img2React

namespace Img2React

/-!
## Claim C1 — idempotence of normalization
-/

/-- C1 (counterexample): normalization is not idempotent.  For the
react-mui format, `prepareCodeForPreview` maps the empty raw input to its
fixed fallback component, but a second application rewrites that fallback
again — it prepends the rebuilt `import React ...` header and appends a new
`export default App;` — so `normalize(normalize('', react-mui)) ≠
normalize('', react-mui)`. -/
theorem c1_normalize_not_idempotent_mui_empty :
    prepareCodeForPreview fmtReactMui (prepareCodeForPreview fmtReactMui (lit "")) ≠
      prepareCodeForPreview fmtReactMui (lit "") := by decide

/-- C1 (amended): idempotence fails in general (see the counterexample at
the empty react-mui input, where the second pass adds an import header and
an export to the fallback).  What does hold: for the flutter format, on
backtick-free raw input with non-blank content, `prepareCodeForPreview` is
idempotent — there the pipeline reduces to trimming, and trimming is
idempotent.  (Backticks break flutter idempotence too: a bare fence
normalizes to the empty string, which a second pass replaces by the
fallback app.) -/
theorem c1_flutter_normalize_idempotent_on_tickfree {x : Str} (h1 : noTick x)
    (h2 : trimJs x ≠ []) :
    prepareCodeForPreview fmtFlutter (prepareCodeForPreview fmtFlutter x) =
      prepareCodeForPreview fmtFlutter x := by
  rw [prepareCodeForPreview_flutter_eq_trim h1 h2,
      prepareCodeForPreview_flutter_eq_trim (noTick_trimJs h1)
        (by rw [trimJs_idem]; exact h2),
      trimJs_idem]

/-- C1 (witness): the amended idempotence at a concrete tick-free flutter
input. -/
theorem c1_flutter_normalize_idempotent_witness :
    prepareCodeForPreview fmtFlutter
        (prepareCodeForPreview fmtFlutter (lit "void main() \x7b\x7d")) =
      prepareCodeForPreview fmtFlutter (lit "void main() \x7b\x7d") :=
  c1_flutter_normalize_idempotent_on_tickfree (by decide) (by decide)

/-!
## Claim C2 — the normalizer always emits the required entry point
-/

set_option maxRecDepth 2000 in
/-- C2 (counterexample): for the flutter format, `prepareCodeForPreview`
returns non-code prose unchanged: the output for `"hello"` is `"hello"`,
which contains no `main(` entry point and is not the deterministic
fallback (the `main()` insertion only happens later, inside
`createDartPadUrl`). -/
theorem c2_flutter_normalizer_no_entry_point :
    prepareCodeForPreview fmtFlutter (lit "hello") = lit "hello" ∧
    includesB (lit "main(") (prepareCodeForPreview fmtFlutter (lit "hello")) = false := by
  constructor <;> decide

set_option maxHeartbeats 2000000 in
/-- C2 (amended): the entry-point guarantee holds for the React formats
but not for flutter.  For every raw input with non-blank content,
`prepareCodeForPreview` output contains `export default App` for both
react-mui and react-native (note: the canonical name this normalizer
enforces is `App`, not `GeneratedComponent`), and the azure react-mui
preprocessor always outputs text containing
`export default GeneratedComponent` (its hardcoded fallback component when
it cannot coerce the input).  For flutter, `prepareCodeForPreview` gives
no entry-point guarantee (see the counterexample); for blank input the
React fallback `function App() ...` carries the component name but no
export statement. -/
theorem c2_react_normalizers_guarantee_export (s : Str) :
    (trimJs s ≠ [] →
      includesB (lit "export default App")
        (prepareCodeForPreview fmtReactMui s) = true) ∧
    (trimJs s ≠ [] →
      includesB (lit "export default App")
        (prepareCodeForPreview fmtReactNative s) = true) ∧
    includesB (lit "export default GeneratedComponent")
      (azPreprocessCodeForReactLive s) = true := by
  refine ⟨fun h2 => ?_, fun h2 => ?_, ?_⟩
  · unfold prepareCodeForPreview
    rw [if_neg (by simp [List.isEmpty_iff, h2])]
    simp only [if_neg (show ¬(fmtReactMui = fmtFlutter) by decide),
      if_neg (show ¬(fmtReactMui = fmtReactNative) by decide)]
    exact includesB_ensure (by decide)
  · unfold prepareCodeForPreview
    rw [if_neg (by simp [List.isEmpty_iff, h2])]
    simp only [if_neg (show ¬(fmtReactNative = fmtFlutter) by decide),
      if_pos (show fmtReactNative = fmtReactNative from rfl)]
    exact rn_branch_contains _
  · unfold azPreprocessCodeForReactLive
    apply includesB_trimJs (by decide) (by decide) (by decide)
    exact azure_branch_contains _

/-- C2 (witness): the amended guarantee at a concrete non-blank input. -/
theorem c2_react_normalizers_guarantee_export_witness :
    includesB (lit "export default App")
        (prepareCodeForPreview fmtReactMui (lit "hello")) = true ∧
    includesB (lit "export default App")
        (prepareCodeForPreview fmtReactNative (lit "hello")) = true ∧
    includesB (lit "export default GeneratedComponent")
      (azPreprocessCodeForReactLive (lit "hello")) = true :=
  ⟨(c2_react_normalizers_guarantee_export (lit "hello")).1 (by decide),
   (c2_react_normalizers_guarantee_export (lit "hello")).2.1 (by decide),
   (c2_react_normalizers_guarantee_export (lit "hello")).2.2⟩


/-!
## Claim C3 — canonical component name and export for react-mui
-/

theorem includesB_rxRepl_blankLines {p : Str} (hne : p ≠ [])
    (hhead : ∀ c, p.head? = some c → isJsWs c = false)
    (hnl : ∀ c ∈ p, ¬(c = '\n')) (r : Str) {t : Str}
    (h : includesB p t = true) :
    includesB p (rxRepl blankLinesRx r true t) = true :=
  includesB_rxReplAux_blankLines hne hhead hnl r (t.length + 1) none t h

set_option maxRecDepth 10000 in
theorem gemV2_ensure_contains (c : Str) :
    includesB (lit "export default GeneratedComponent")
      (if !includesB (lit "export default GeneratedComponent") c then
        if includesB (lit "function GeneratedComponent") c then
          if !((lit "export default GeneratedComponent;").isSuffixOf c) then
            c ++ lit "\n\nexport default GeneratedComponent;"
          else c
        else if includesB (lit "const GeneratedComponent =") c then
          if !((lit "export default GeneratedComponent;").isSuffixOf c) then
            c ++ lit "\n\nexport default GeneratedComponent;"
          else c
        else gemV2Fallback
      else c) = true := by
  by_cases h0 : includesB (lit "export default GeneratedComponent") c = true
  · rw [if_neg (by simp [h0])]
    exact h0
  · have hb : includesB (lit "export default GeneratedComponent") c = false := by
      revert h0
      cases includesB (lit "export default GeneratedComponent") c <;> simp
    rw [if_pos (by simp [hb])]
    have happ : includesB (lit "export default GeneratedComponent")
        (c ++ lit "\n\nexport default GeneratedComponent;") = true :=
      includesB_append_right c (by decide)
    have hsuf :
        (lit "export default GeneratedComponent;").isSuffixOf c = true →
        includesB (lit "export default GeneratedComponent") c = true := by
      intro hs
      apply includesB_of_sub
      have h1 : (lit "export default GeneratedComponent") <+:
          (lit "export default GeneratedComponent;") := by decide
      exact h1.isInfix.trans (List.isSuffixOf_iff_suffix.mp hs).isInfix
    by_cases hf : includesB (lit "function GeneratedComponent") c = true
    · rw [if_pos hf]
      by_cases hs : (lit "export default GeneratedComponent;").isSuffixOf c = true
      · rw [if_neg (by simp [hs])]
        exact hsuf hs
      · have hcond : (!(lit "export default GeneratedComponent;").isSuffixOf c) = true := by
          revert hs
          cases (lit "export default GeneratedComponent;").isSuffixOf c <;> simp
        rw [if_pos hcond]
        exact happ
    · rw [if_neg hf]
      by_cases hc2 : includesB (lit "const GeneratedComponent =") c = true
      · rw [if_pos hc2]
        by_cases hs : (lit "export default GeneratedComponent;").isSuffixOf c = true
        · rw [if_neg (by simp [hs])]
          exact hsuf hs
        · have hcond : (!(lit "export default GeneratedComponent;").isSuffixOf c) = true := by
            revert hs
            cases (lit "export default GeneratedComponent;").isSuffixOf c <;> simp
          rw [if_pos hcond]
          exact happ
      · rw [if_neg hc2]
        decide

set_option maxRecDepth 10000 in
/-- C3 (counterexample): on raw input that already contains two
`export default GeneratedComponent;` statements, the v2 react-mui
normalizer `preprocessCodeForReactLive` leaves both in place — the
`includes` guard sees the canonical export is present and skips every
corrective step — so the output does not contain exactly one such
statement. -/
theorem c3_mui_export_not_unique :
    countOccur (lit "export default GeneratedComponent;")
      (gemV2PreprocessCodeForReactLive duplicatedExportInput) = 2 := by decide

/-- C3 (amended): uniqueness fails (see the counterexample with a
duplicated export, which the normalizer keeps verbatim), and the appended
export lands at the end of the text rather than being canonicalized into
a single trailing statement.  What does hold: for every raw input, the
output of the v2 react-mui normalizer `preprocessCodeForReactLive`
contains `export default GeneratedComponent` — via the pre-existing
statement, the appended one, or the hardcoded fallback component. -/
theorem c3_mui_normalizer_contains_canonical_export (s : Str) :
    includesB (lit "export default GeneratedComponent")
      (gemV2PreprocessCodeForReactLive s) = true := by
  unfold gemV2PreprocessCodeForReactLive
  simp only []
  apply includesB_trimJs (by decide) (by decide) (by decide)
  apply includesB_rxRepl_blankLines (by decide) (by decide) (by decide)
  exact gemV2_ensure_contains _

/-!
## Claim C4 — collapsing duplicate `export default` statements
-/

set_option maxRecDepth 10000 in
/-- C4 (counterexample): for raw react-mui text with two `export default`
statements embedded mid-line, `prepareCodeForPreview` does not collapse
them: the line-anchored removal regexes only strip full-line export
statements, so both occurrences survive into the output. -/
theorem c4_inline_double_export_not_collapsed :
    countOccur (lit "export default")
      (prepareCodeForPreview fmtReactMui inlineDoubleExportInput) = 2 := by
  decide

set_option maxRecDepth 10000 in
/-- C4 (amended): the collapse only holds for full-line export statements.
When each of the two `export default` statements sits on its own line, the
line-anchored regexes of `prepareCodeForPreview` remove both and the
pipeline appends a single fresh `export default App;`, so the output
contains exactly one `export default`; mid-line duplicates are kept (see
the counterexample). -/
theorem c4_full_line_double_export_collapsed :
    countOccur (lit "export default")
      (prepareCodeForPreview fmtReactMui fullLineDoubleExportInput) = 1 := by
  decide

/-!
## Claim C5 — fence markers are removed entirely
-/

theorem drop_takeWhile_length (f : Char → Bool) :
    ∀ t : Str, t.drop (t.takeWhile f).length = t.dropWhile f := by
  intro t
  induction t with
  | nil => rfl
  | cons c rest ih =>
    by_cases h : f c = true
    · rw [List.takeWhile_cons, if_pos h, List.dropWhile_cons, if_pos h,
        List.length_cons, List.drop_succ_cons]
      exact ih
    · have h' : f c = false := by revert h; cases f c <;> simp
      rw [List.takeWhile_cons, if_neg (by simp [h']), List.dropWhile_cons,
        if_neg (by simp [h'])]
      rfl

theorem matchSeq_starG (f : Char → Bool) (t : Str) :
    matchSeq [.starG f] t = some (t.dropWhile f) := by
  show (pieceOpts (.starG f) t).findSome? (fun a => matchSeq [] a) = _
  simp only [pieceOpts]
  rw [List.range_succ, List.reverse_append]
  simp only [List.reverse_cons, List.reverse_nil, List.nil_append, List.map_cons,
    List.findSome?_cons, List.singleton_append, matchSeq]
  rw [drop_takeWhile_length]

theorem matchSeq_lit_append (p : Str) (ps : List RxPiece) (t : Str) :
    matchSeq (.lit p :: ps) (p ++ t) = matchSeq ps t := by
  rw [matchSeq_lit_cons,
    if_pos (List.isPrefixOf_iff_prefix.mpr (List.prefix_append p t)),
    List.drop_left]

theorem matchSeq_fence_tags (X : Str) :
    matchSeq [.altOpt [lit "jsx", lit "js", lit "javascript", lit "tsx",
        lit "ts", lit "typescript", lit "dart", lit "flutter"],
      .starG isJsWs] (lit "jsx\n" ++ X) =
    some (List.dropWhile isJsWs (lit "\n" ++ X)) := by
  show (pieceOpts (.altOpt [lit "jsx", lit "js", lit "javascript", lit "tsx",
      lit "ts", lit "typescript", lit "dart", lit "flutter"])
      (lit "jsx\n" ++ X)).findSome? (fun a => matchSeq [.starG isJsWs] a) = _
  have hopts : pieceOpts (.altOpt [lit "jsx", lit "js", lit "javascript",
      lit "tsx", lit "ts", lit "typescript", lit "dart", lit "flutter"])
      (lit "jsx\n" ++ X) =
      [lit "\n" ++ X, lit "x\n" ++ X, lit "jsx\n" ++ X] := rfl
  rw [hopts, List.findSome?_cons, matchSeq_starG]

theorem findSome?_cons_some {α β : Type} {f : α → Option β} {a : α}
    {as : List α} {b : β} (h : f a = some b) :
    List.findSome? f (a :: as) = some b := by
  rw [List.findSome?_cons, h]

theorem rxMatchLen_fence_jsx (c : Char) (b : Str) (hw : isJsWs c = false) :
    rxMatchLen fence252Rx
      ((tick3 ++ lit "jsx\n") ++ (((c :: b) ++ lit "\n") ++ tick3)) =
      some (6 + 1) := by
  have hms : matchSeq [RxPiece.lit tick3,
      .altOpt [lit "jsx", lit "js", lit "javascript", lit "tsx", lit "ts",
        lit "typescript", lit "dart", lit "flutter"], .starG isJsWs]
      ((tick3 ++ lit "jsx\n") ++ (((c :: b) ++ lit "\n") ++ tick3)) =
      some (((c :: b) ++ lit "\n") ++ tick3) := by
    rw [List.append_assoc, matchSeq_lit_append, matchSeq_fence_tags]
    have h1 : List.dropWhile isJsWs
        (lit "\n" ++ (((c :: b) ++ lit "\n") ++ tick3)) =
        ((c :: b) ++ lit "\n") ++ tick3 := by
      show List.dropWhile isJsWs
        ('\n' :: (((c :: b) ++ lit "\n") ++ tick3)) = _
      rw [List.dropWhile_cons, if_pos (by decide)]
      show List.dropWhile isJsWs (c :: ((b ++ lit "\n") ++ tick3)) = _
      rw [List.dropWhile_cons, if_neg (by simp [hw])]
      simp [List.append_assoc]
    rw [h1]
  unfold rxMatchLen fence252Rx
  apply findSome?_cons_some
  rw [hms, Option.map_some']
  congr 1
  rw [List.length_append, show (tick3 ++ lit "jsx\n").length = 7 from rfl]
  omega

theorem rxReplAux_match_step {rx : Rx} (ha : rx.anchored = false)
    (hl : rx.leftWord = false) (repl : Str) (g : Bool) (n : Nat)
    (prev : Option Char) {t : Str} {k : Nat}
    (hm : rxMatchLen rx t = some (k + 1)) (hne : t ≠ []) :
    rxReplAux rx repl g (n + 1) prev t =
      (if g then
        repl ++ rxReplAux rx repl g n ((t.take (k + 1)).getLast?) (t.drop (k + 1))
       else repl ++ t.drop (k + 1)) := by
  cases t with
  | nil => exact absurd rfl hne
  | cons c rest =>
    rw [rxReplAux, if_pos (posOK_free ha hl prev), hm]

theorem tick3_not_prefix_cons {d : Char} (hd : d ≠ btChar) (rest : Str) :
    tick3.isPrefixOf (d :: rest) = false := by
  simp [tick3, List.isPrefixOf]
  intro he
  exact absurd he.symm hd

theorem fence252_noMatch_cons {d : Char} (hd : d ≠ btChar) (rest : Str) :
    rxMatchLen fence252Rx (d :: rest) = none := by
  apply rxMatchLen_eq_none_of_all_tick _ (tick3_not_prefix_cons hd rest)
  intro ps hps
  simp [fence252Rx] at hps
  rcases hps with h1 | h1 <;> exact ⟨_, h1⟩

theorem fence_tick3_end (n : Nat) (prev : Option Char) :
    rxReplAux fence252Rx [] true (n + 1) prev tick3 = [] := by
  rw [rxReplAux_match_step rfl rfl [] true n prev
      (show rxMatchLen fence252Rx tick3 = some (2 + 1) by decide)
      (by decide), if_pos rfl]
  show [] ++ rxReplAux fence252Rx [] true n ((tick3.take (2 + 1)).getLast?) [] = []
  rw [List.nil_append]
  cases n <;> rfl

set_option maxHeartbeats 1000000 in
/-- C5 (amended): the fence-marker removal itself is complete, but the
universal "no backtick sequences remain" claim fails because backticks
inside the fenced body (e.g. a JS template literal) are untouched — see
the counterexample.  What holds: for every backtick-free body starting
with a non-whitespace character, the line-252 replace of
`prepareCodeForPreview` maps the fenced text exactly to the body (with the
newline that preceded the closing fence); both fence markers and the `jsx`
tag are removed entirely. -/
theorem c5_fence_markers_removed (c : Char) (b : Str) (hw : isJsWs c = false)
    (hb : noTick (c :: b)) :
    rxRepl fence252Rx [] true
      (tick3 ++ lit "jsx\n" ++ (c :: b) ++ lit "\n" ++ tick3) =
    (c :: b) ++ lit "\n" := by
  have hassoc : tick3 ++ lit "jsx\n" ++ (c :: b) ++ lit "\n" ++ tick3 =
      (tick3 ++ lit "jsx\n") ++ (((c :: b) ++ lit "\n") ++ tick3) := by
    simp [List.append_assoc]
  rw [hassoc]
  unfold rxRepl
  rw [rxReplAux_match_step rfl rfl [] true _ none
      (rxMatchLen_fence_jsx c b hw) (by simp), if_pos rfl, List.nil_append]
  have hdrop : ((tick3 ++ lit "jsx\n") ++ (((c :: b) ++ lit "\n") ++ tick3)).drop
      (6 + 1) = ((c :: b) ++ lit "\n") ++ tick3 := by
    rw [show (6 + 1) = (tick3 ++ lit "jsx\n").length from rfl, List.drop_left]
  rw [hdrop]
  have hno : ∀ i, i < ((c :: b) ++ lit "\n").length →
      rxMatchLen fence252Rx (((c :: b) ++ lit "\n").drop i ++ tick3) = none := by
    intro i hi
    rcases hd : ((c :: b) ++ lit "\n").drop i with _ | ⟨d, r⟩
    · exfalso
      have hlen2 := congrArg List.length hd
      rw [List.length_drop] at hlen2
      simp only [List.length_nil] at hlen2
      omega
    · have hdm : d ∈ (c :: b) ++ lit "\n" := by
        have : d ∈ ((c :: b) ++ lit "\n").drop i := by
          rw [hd]
          exact List.mem_cons_self _ _
        exact List.mem_of_mem_drop this
      have hdt : d ≠ btChar := by
        rcases List.mem_append.mp hdm with h1 | h1
        · exact hb d h1
        · have h2 : d ∈ ['\n'] := h1
          have h3 : d = '\n' := by simpa using h2
          rw [h3]
          decide
      show rxMatchLen fence252Rx (d :: (r ++ tick3)) = none
      exact fence252_noMatch_cons hdt _
  rw [rxReplAux_copy rfl rfl [] true ((c :: b) ++ lit "\n") tick3 hno _ _]
  have hfuel : ((tick3 ++ lit "jsx\n") ++ (((c :: b) ++ lit "\n") ++ tick3)).length -
      ((c :: b) ++ lit "\n").length = 9 + 1 := by
    simp only [List.length_append, List.length_cons,
      show (lit "jsx\n").length = 4 from rfl,
      show (lit "\n").length = 1 from rfl,
      show tick3.length = 3 from rfl]
    omega
  rw [hfuel, fence_tick3_end]
  simp

set_option maxRecDepth 10000 in
/-- C5 (counterexample): the full react-mui normalizer does not guarantee a
backtick-free output for fenced input — a template literal inside the
fenced body keeps its backticks. -/
theorem c5_backticks_survive_in_body :
    includesB [btChar]
      (prepareCodeForPreview fmtReactMui fencedTemplateInput) = true := by
  decide

/-- C5 (witness): the amended fence-stripping equation at a concrete
backtick-free body. -/
theorem c5_fence_markers_removed_witness :
    isJsWs 'v' = false ∧ noTick ('v' :: lit "oid f()") ∧
    rxRepl fence252Rx [] true
      (tick3 ++ lit "jsx\n" ++ ('v' :: lit "oid f()") ++ lit "\n" ++ tick3) =
    ('v' :: lit "oid f()") ++ lit "\n" :=
  ⟨by decide, by decide,
   c5_fence_markers_removed 'v' (lit "oid f()") (by decide) (by decide)⟩

/-!
## Claim C6 — oversized Dart sources and the DartPad URL budget
-/

theorem enc_append (a b : Str) :
    encodeURIComponent (a ++ b) =
      encodeURIComponent a ++ encodeURIComponent b := by
  simp [encodeURIComponent, List.flatMap_append]

theorem encLen_replicate (c : Char) (n : Nat) :
    (encodeURIComponent (List.replicate n c)).length =
      n * (encChar c).length := by
  induction n with
  | zero => simp [encodeURIComponent]
  | succ m ih =>
    rw [List.replicate_succ]
    show (encChar c ++ encodeURIComponent (List.replicate m c)).length = _
    rw [List.length_append, ih]
    ring

theorem enc_replicate_a (n : Nat) :
    encodeURIComponent (List.replicate n 'a') = List.replicate n 'a' := by
  induction n with
  | zero => rfl
  | succ m ih =>
    rw [List.replicate_succ]
    show encChar 'a' ++ encodeURIComponent (List.replicate m 'a') = _
    rw [show encChar 'a' = ['a'] from rfl, ih]
    rfl

theorem getLast?_append_replicate_succ (X : Str) (c : Char) (n : Nat) :
    (X ++ List.replicate (n + 1) c).getLast? = some c := by
  have h1 : (X ++ List.replicate (n + 1) c).reverse.head? = some c := by
    rw [List.reverse_append, List.reverse_replicate]
    show (List.replicate (n + 1) c ++ X.reverse).head? = some c
    rw [List.replicate_succ]
    rfl
  rwa [List.head?_reverse] at h1

theorem dropWhile_replicate_append {p : Char → Bool} {c : Char}
    (hc : p c = true) (n : Nat) (l : Str) :
    (List.replicate n c ++ l).dropWhile p = l.dropWhile p := by
  induction n with
  | zero => rfl
  | succ m ih =>
    rw [List.replicate_succ, List.cons_append, List.dropWhile_cons, if_pos hc]
    exact ih

theorem trimEnd_append_replicate_ws (X : Str) (n : Nat) :
    trimEnd (X ++ List.replicate n ' ') = trimEnd X := by
  unfold trimEnd
  rw [List.reverse_append, List.reverse_replicate,
    dropWhile_replicate_append (by decide) n X.reverse]

theorem noTick_replicate {c : Char} (hc : c ≠ btChar) (n : Nat) :
    noTick (List.replicate n c) := by
  intro d hd
  have h1 := List.eq_of_mem_replicate hd
  rw [h1]
  exact hc

theorem preamble_append_head_nonws {Y : Str} (c : Char)
    (hc : (dartPreamble ++ Y).head? = some c) : isJsWs c = false := by
  have h2 : some 'i' = some c := hc
  injection h2 with h2
  rw [← h2]
  decide

theorem cleanDartCode_eq_of_trim (input : Str) (n : Nat)
    (htr : trimJs input = dartPreamble ++ List.replicate (n + 1) 'a') :
    cleanDartCode input = dartPreamble ++ List.replicate (n + 1) 'a' := by
  have htick : noTick (dartPreamble ++ List.replicate (n + 1) 'a') :=
    noTick_append (by decide) (noTick_replicate (by decide) _)
  have hhead : ∀ c, (dartPreamble ++ List.replicate (n + 1) 'a').head? = some c →
      isJsWs c = false := fun c hc => preamble_append_head_nonws c hc
  have hlast : ∀ c, (dartPreamble ++ List.replicate (n + 1) 'a').getLast? = some c →
      isJsWs c = false := by
    intro c hc
    rw [getLast?_append_replicate_succ] at hc
    injection hc with h2
    rw [← h2]
    decide
  have hmat : includesB (lit "import 'package:flutter/material.dart'")
      (dartPreamble ++ List.replicate (n + 1) 'a') = true :=
    includesB_append_left _ (by decide)
  have hmain : includesB (lit "void main()")
      (dartPreamble ++ List.replicate (n + 1) 'a') = true :=
    includesB_append_left _ (by decide)
  unfold cleanDartCode
  simp only []
  rw [htr, rxRepl_eq_self (fun t ht => dartFence_noMatch ht) htick,
    trimJs_eq_self hhead hlast]
  rw [if_neg (show ¬(!includesB (lit "import 'package:flutter/material.dart'")
      (dartPreamble ++ List.replicate (n + 1) 'a')) = true by rw [hmat]; decide)]
  rw [if_neg (show ¬(!includesB (lit "void main()")
      (dartPreamble ++ List.replicate (n + 1) 'a')) = true by rw [hmain]; decide)]

theorem trimJs_oversizedRaw :
    trimJs oversizedRawDartInput = dartPreamble ++ List.replicate 6900 'a' := by
  rw [show oversizedRawDartInput =
      dartPreamble ++ (List.replicate 6900 'a' ++ List.replicate 20 ' ') from by
    unfold oversizedRawDartInput
    rw [List.append_assoc]]
  show trimEnd (trimStart
    (dartPreamble ++ (List.replicate 6900 'a' ++ List.replicate 20 ' '))) = _
  rw [trimStart_eq_self (fun c hc => preamble_append_head_nonws c hc),
    ← List.append_assoc, trimEnd_append_replicate_ws]
  apply trimEnd_eq_self
  intro c hc
  have hg : (dartPreamble ++ List.replicate 6900 'a').getLast? = some 'a' :=
    getLast?_append_replicate_succ dartPreamble 'a' 6899
  rw [hg] at hc
  injection hc with h2
  rw [← h2]
  decide

theorem trimJs_oversizedClean :
    trimJs oversizedCleanDartInput = dartPreamble ++ List.replicate 7000 'a' := by
  show trimJs (dartPreamble ++ List.replicate 7000 'a') = _
  apply trimJs_eq_self (fun c hc => preamble_append_head_nonws c hc)
  intro c hc
  have hg : (dartPreamble ++ List.replicate 7000 'a').getLast? = some 'a' :=
    getLast?_append_replicate_succ dartPreamble 'a' 6999
  rw [hg] at hc
  injection hc with h2
  rw [← h2]
  decide

theorem encLen_oversizedClean :
    (encodeURIComponent (cleanDartCode oversizedCleanDartInput)).length = 7075 := by
  have hclean : cleanDartCode oversizedCleanDartInput =
      dartPreamble ++ List.replicate 7000 'a' :=
    cleanDartCode_eq_of_trim _ 6999 trimJs_oversizedClean
  rw [hclean, enc_append, List.length_append, encLen_replicate,
    show (encodeURIComponent dartPreamble).length = 75 from by decide,
    show (encChar 'a').length = 1 from rfl]

/-- C6 (amended): the budget check guards the *cleaned* code: whenever the
URL-encoding of `cleanDartCode code` exceeds the 7000-character budget,
`createDartPadUrl` returns the placeholder app URL.  The raw source's own
encoded length is never consulted — see the counterexample, where an
oversized raw source still gets its (cleaned, within-budget) code embedded
in the URL. -/
theorem c6_oversized_clean_dart_gets_placeholder (code : Str)
    (h : dartPadMaxUrlLength <
      (encodeURIComponent (cleanDartCode code)).length) :
    createDartPadUrl code = dartPadPlaceholderUrl := by
  unfold createDartPadUrl
  simp only []
  rw [if_neg (by omega)]

/-- C6 (witness): the amended guarantee at a concrete Dart source whose
cleaned form encodes to 7075 > 7000 characters. -/
theorem c6_oversized_clean_dart_gets_placeholder_witness :
    dartPadMaxUrlLength <
      (encodeURIComponent (cleanDartCode oversizedCleanDartInput)).length ∧
    createDartPadUrl oversizedCleanDartInput = dartPadPlaceholderUrl :=
  ⟨by rw [encLen_oversizedClean]; decide,
   c6_oversized_clean_dart_gets_placeholder oversizedCleanDartInput
     (by rw [encLen_oversizedClean]; decide)⟩

set_option maxRecDepth 10000 in
/-- C6 (counterexample): the claim as stated quantifies over Dart sources
whose own URL-encoded form exceeds 7000 characters, but the code applies
the budget to the cleaned code.  `oversizedRawDartInput` encodes to 7035 >
7000 characters, yet `createDartPadUrl` trims its trailing whitespace,
finds the cleaned encoding (6975) within budget, and returns a URL
embedding the oversized source rather than the placeholder URL. -/
theorem c6_raw_budget_not_checked :
    7000 < (encodeURIComponent oversizedRawDartInput).length ∧
    createDartPadUrl oversizedRawDartInput ≠ dartPadPlaceholderUrl := by
  constructor
  · rw [show oversizedRawDartInput =
        dartPreamble ++ List.replicate 6900 'a' ++ List.replicate 20 ' '
        from rfl,
      enc_append, enc_append, List.length_append, List.length_append,
      encLen_replicate, encLen_replicate,
      show (encodeURIComponent dartPreamble).length = 75 from by decide,
      show (encChar 'a').length = 1 from rfl,
      show (encChar ' ').length = 3 from rfl]
    omega
  · intro heq
    have hclean : cleanDartCode oversizedRawDartInput =
        dartPreamble ++ List.replicate 6900 'a' :=
      cleanDartCode_eq_of_trim _ 6899 trimJs_oversizedRaw
    have hlen6975 : (encodeURIComponent
        (dartPreamble ++ List.replicate 6900 'a')).length = 6975 := by
      rw [enc_append, List.length_append, encLen_replicate,
        show (encodeURIComponent dartPreamble).length = 75 from by decide,
        show (encChar 'a').length = 1 from rfl]
    have hurl : createDartPadUrl oversizedRawDartInput =
        (dartPadUrlPrefix ++ encodeURIComponent dartPreamble) ++
          (List.replicate 6900 'a' ++ dartPadUrlSuffix) := by
      unfold createDartPadUrl
      simp only []
      rw [hclean, if_pos (by rw [hlen6975]; decide), enc_append, enc_replicate_a]
      rw [← List.append_assoc dartPadUrlPrefix (encodeURIComponent dartPreamble)
          (List.replicate 6900 'a'),
        List.append_assoc (dartPadUrlPrefix ++ encodeURIComponent dartPreamble)
          (List.replicate 6900 'a') dartPadUrlSuffix]
    rw [hurl] at heq
    have h120 := congrArg (List.take 120) heq
    rw [show (120 : Nat) =
        (dartPadUrlPrefix ++ encodeURIComponent dartPreamble).length + 17 from by
      decide] at h120
    rw [List.take_append,
      List.take_append_of_le_length (by rw [List.length_replicate]; omega),
      List.take_replicate] at h120
    exact absurd h120 (by decide)

/-!
## Claim C7 — the Azure retry loop makes at most 2 attempts
-/

/-- C7 (confirmed): for every LLM oracle and format, the Azure
`generateReactCode` while-loop invokes the model at most twice, and when
both attempts fail validation it returns the terminal configuration error
(after exactly 2 invocations) instead of retrying further. -/
theorem c7_azure_at_most_two_attempts (llm : Nat → Str) (codeFormat : Str) :
    (azureGenerateReactCode llm codeFormat).2 ≤ 2 ∧
    (azureAttemptOK llm codeFormat 0 = false →
      azureAttemptOK llm codeFormat 1 = false →
      azureGenerateReactCode llm codeFormat =
        (.error azureTerminalErrorMsg, 2)) := by
  constructor
  · by_cases h0 : azureAttemptOK llm codeFormat 0 = true
    · have hres : azureGenerateReactCode llm codeFormat =
          (.ok (azureAttempt llm codeFormat 0), 1) := by
        show azureGenLoop llm codeFormat (1 + 1) 0 = _
        rw [azureGenLoop]
        simp [h0]
      rw [hres]
      show (1 : Nat) ≤ 2
      decide
    · have h0' : azureAttemptOK llm codeFormat 0 = false := by
        revert h0
        cases azureAttemptOK llm codeFormat 0 <;> simp
      have hstep : azureGenerateReactCode llm codeFormat =
          azureGenLoop llm codeFormat (0 + 1) 1 := by
        show azureGenLoop llm codeFormat (1 + 1) 0 = _
        rw [azureGenLoop]
        simp [h0']
      by_cases h1 : azureAttemptOK llm codeFormat 1 = true
      · have hres : azureGenLoop llm codeFormat (0 + 1) 1 =
            (.ok (azureAttempt llm codeFormat 1), 2) := by
          rw [azureGenLoop]
          simp [h1]
        rw [hstep, hres]
      · have h1' : azureAttemptOK llm codeFormat 1 = false := by
          revert h1
          cases azureAttemptOK llm codeFormat 1 <;> simp
        have hres : azureGenLoop llm codeFormat (0 + 1) 1 =
            (.error azureTerminalErrorMsg, 2) := by
          rw [azureGenLoop]
          simp [h1']
          rfl
        rw [hstep, hres]
  · intro hf0 hf1
    have hstep : azureGenerateReactCode llm codeFormat =
        azureGenLoop llm codeFormat (0 + 1) 1 := by
      show azureGenLoop llm codeFormat (1 + 1) 0 = _
      rw [azureGenLoop]
      simp [hf0]
    have hres : azureGenLoop llm codeFormat (0 + 1) 1 =
        (.error azureTerminalErrorMsg, 2) := by
      rw [azureGenLoop]
      simp [hf1]
      rfl
    rw [hstep, hres]

set_option maxRecDepth 10000 in
/-- C7 (witness): with an oracle whose response never carries responsive
breakpoints, both validation attempts fail and the loop stops after
exactly 2 invocations with the terminal error. -/
theorem c7_azure_at_most_two_attempts_witness :
    (azureGenerateReactCode (fun _ => noBreakpointsResponse) fmtReactMui).2 ≤ 2 ∧
    azureGenerateReactCode (fun _ => noBreakpointsResponse) fmtReactMui =
      (.error azureTerminalErrorMsg, 2) :=
  ⟨(c7_azure_at_most_two_attempts (fun _ => noBreakpointsResponse) fmtReactMui).1,
   (c7_azure_at_most_two_attempts (fun _ => noBreakpointsResponse) fmtReactMui).2
     (by decide) (by decide)⟩

/-!
## Claim C8 — unrecognized codeFormat values
-/

/-- C8 (counterexample): the Gemini `generateReactCode` does not fail fast
on an unrecognized format.  With `codeFormat = "html"` it still invokes
the model once (`prompt` stays empty but `generateContent` is called) and
returns the raw response text unprocessed, rather than raising a
configuration error. -/
theorem c8_gemini_no_fail_fast :
    geminiGenerateReactCode (fun _ => lit "whatever") (lit "html") =
      (lit "whatever", 1) := by decide

/-- C8 (amended): code generation itself does not reject a bad format (see
the counterexample: the model is still invoked and raw text returned); the
unrecognized value only surfaces later, in `initializePreview`, which
throws `Unsupported code format: ...` without calling any preview
builder. -/
theorem c8_preview_rejects_unknown_format
    (sandboxUrl snackUrl : Str → Str) (code codeFormat : Str)
    (h1 : trimJs code ≠ [])
    (h2 : codeFormat ≠ fmtReactMui) (h3 : codeFormat ≠ fmtReactNative)
    (h4 : codeFormat ≠ fmtFlutter) :
    initializePreviewModel sandboxUrl snackUrl code codeFormat =
      .error (lit "Unsupported code format: " ++ codeFormat) := by
  unfold initializePreviewModel
  rw [if_neg (by simp [List.isEmpty_iff, h1]), if_neg h2, if_neg h3, if_neg h4]

/-- C8 (witness): the amended statement at `codeFormat = "html"`. -/
theorem c8_preview_rejects_unknown_format_witness :
    initializePreviewModel (fun _ => []) (fun _ => []) (lit "x") (lit "html") =
      .error (lit "Unsupported code format: " ++ lit "html") :=
  c8_preview_rejects_unknown_format (fun _ => []) (fun _ => [])
    (lit "x") (lit "html") (by decide) (by decide) (by decide) (by decide)

/-!
## Claims C9 and C10 — the batch generation loop
-/

theorem genAllLoop_untouched (gen : ImageData → Except Str Str) :
    ∀ (ws st : List ImageData) (i : ImageData), i ∈ st →
      (∀ w ∈ ws, w.id ≠ i.id) →
      i ∈ genAllLoop gen ws st := by
  intro ws
  induction ws with
  | nil => intro st i hi _; exact hi
  | cons w ws' ih =>
    intro st i hi hw
    have hne : w.id ≠ i.id := hw w (List.mem_cons_self _ _)
    have hcond : ¬(i.id = w.id) := fun h => hne h.symm
    rw [genAllLoop]
    rcases hg : gen w with e | c
    · show i ∈ genAllLoop gen ws'
        (st.map (fun j => if j.id = w.id then
          { j with isGenerating := false } else j))
      refine ih _ i ?_ (fun x hx => hw x (List.mem_cons_of_mem _ hx))
      have h1 := List.mem_map_of_mem
        (fun j => if j.id = w.id then { j with isGenerating := false } else j) hi
      simpa [hcond] using h1
    · show i ∈ genAllLoop gen ws'
        (st.map (fun j => if j.id = w.id then
          { j with code := c, isGenerating := false } else j))
      refine ih _ i ?_ (fun x hx => hw x (List.mem_cons_of_mem _ hx))
      have h1 := List.mem_map_of_mem
        (fun j => if j.id = w.id then
          { j with code := c, isGenerating := false } else j) hi
      simpa [hcond] using h1

theorem genAllLoop_processed (gen : ImageData → Except Str Str) :
    ∀ (ws st : List ImageData) (v : ImageData) (c : Str),
      v ∈ ws → (ws.map (fun i => i.id)).Nodup → gen v = .ok c →
      ∀ i ∈ st, i.id = v.id →
        { i with code := c, isGenerating := false } ∈ genAllLoop gen ws st := by
  intro ws
  induction ws with
  | nil => intro st v c hv; exact absurd hv (List.not_mem_nil _)
  | cons w ws' ih =>
    intro st v c hv hnd hok i hi hid
    have hnd2 : (w.id :: ws'.map (fun i => i.id)).Nodup := by
      simpa using hnd
    have hhd : w.id ∉ ws'.map (fun i => i.id) := (List.nodup_cons.mp hnd2).1
    have htl : (ws'.map (fun i => i.id)).Nodup := (List.nodup_cons.mp hnd2).2
    rw [genAllLoop]
    rcases List.mem_cons.mp hv with rfl | hv'
    · rw [hok]
      show { i with code := c, isGenerating := false } ∈ genAllLoop gen ws'
        (st.map (fun j => if j.id = v.id then
          { j with code := c, isGenerating := false } else j))
      apply genAllLoop_untouched
      · have h1 := List.mem_map_of_mem
          (fun j => if j.id = v.id then
            { j with code := c, isGenerating := false } else j) hi
        simpa [hid] using h1
      · intro x hx heq
        apply hhd
        have heq2 : x.id = i.id := heq
        rw [← hid, ← heq2]
        exact List.mem_map_of_mem _ hx
    · have hwv : ¬(i.id = w.id) := by
        intro h
        apply hhd
        rw [← h, hid]
        exact List.mem_map_of_mem _ hv'
      rcases hg : gen w with e | c'
      · show { i with code := c, isGenerating := false } ∈ genAllLoop gen ws'
          (st.map (fun j => if j.id = w.id then
            { j with isGenerating := false } else j))
        refine ih _ v c hv' htl hok i ?_ hid
        have h1 := List.mem_map_of_mem
          (fun j => if j.id = w.id then { j with isGenerating := false } else j) hi
        simpa [hwv] using h1
      · show { i with code := c, isGenerating := false } ∈ genAllLoop gen ws'
          (st.map (fun j => if j.id = w.id then
            { j with code := c', isGenerating := false } else j))
        refine ih _ v c hv' htl hok i ?_ hid
        have h1 := List.mem_map_of_mem
          (fun j => if j.id = w.id then
            { j with code := c', isGenerating := false } else j) hi
        simpa [hwv] using h1

/-- C9 (confirmed): in the batch loop of `generateAllCodes`, each
iteration's failure is caught inside the loop, so every described image
whose own generation succeeds reaches the final state with its generated
code and a cleared `isGenerating` flag, regardless of which other images'
generations throw.  (Distinct image ids are assumed, as produced by the
uploader.) -/
theorem c9_failure_does_not_block_other_images
    (gen : ImageData → Except Str Str) (images : List ImageData)
    (hnodup : (images.map (fun i => i.id)).Nodup)
    (v : ImageData) (hv : v ∈ images) (hdesc : v.description ≠ [])
    (c : Str) (hok : gen v = .ok c) :
    ({ id := v.id, description := v.description, code := c,
       isGenerating := false } : ImageData) ∈ generateAllCodes gen images := by
  unfold generateAllCodes
  simp only []
  have hvv : v ∈ images.filter (fun img => !img.description.isEmpty) :=
    List.mem_filter.mpr ⟨hv, by simp [List.isEmpty_iff, hdesc]⟩
  have hne : ¬((images.filter (fun img => !img.description.isEmpty)).isEmpty
      = true) := by
    simp only [List.isEmpty_iff]
    intro h
    rw [h] at hvv
    exact absurd hvv (List.not_mem_nil _)
  rw [if_neg hne]
  have hnd' : ((images.filter (fun img => !img.description.isEmpty)).map
      (fun i => i.id)).Nodup :=
    List.Nodup.sublist (List.Sublist.map _ (List.filter_sublist _)) hnodup
  have hreset : ({ v with code := [], isGenerating := true } : ImageData) ∈
      images.map (fun img => { img with code := [], isGenerating := true }) :=
    List.mem_map_of_mem _ hv
  exact genAllLoop_processed gen _ _ v c hvv hnd' hok
    { v with code := [], isGenerating := true } hreset rfl

/-- C9 (witness): with the example batch whose first described image fails
generation, the later image `a` still ends with its generated code. -/
theorem c9_failure_does_not_block_other_images_witness :
    ({ id := lit "a", description := lit "da", code := lit "CODE",
       isGenerating := false } : ImageData) ∈ generateAllCodes exGen exImages :=
  c9_failure_does_not_block_other_images exGen exImages (by decide)
    { id := lit "a", description := lit "da", code := lit "old",
      isGenerating := false }
    (by decide) (by decide) (lit "CODE") (by rfl)

/-- C10 (confirmed): when `generateAllCodes` runs with at least one
described image, it resets every image — including ones without a
description — to empty code with `isGenerating := true`, and the loop only
ever clears the flag of described images, so an image without a
description ends the run with its previous code erased and its
`isGenerating` flag still `true`.  (Distinct image ids are assumed.) -/
theorem c10_undescribed_images_left_generating
    (gen : ImageData → Except Str Str) (images : List ImageData)
    (hnodup : (images.map (fun i => i.id)).Nodup)
    (v : ImageData) (hv : v ∈ images) (hdesc : v.description = [])
    (w : ImageData) (hw : w ∈ images) (hwdesc : w.description ≠ []) :
    ({ id := v.id, description := v.description, code := [],
       isGenerating := true } : ImageData) ∈ generateAllCodes gen images := by
  unfold generateAllCodes
  simp only []
  have hwv : w ∈ images.filter (fun img => !img.description.isEmpty) :=
    List.mem_filter.mpr ⟨hw, by simp [List.isEmpty_iff, hwdesc]⟩
  have hne : ¬((images.filter (fun img => !img.description.isEmpty)).isEmpty
      = true) := by
    simp only [List.isEmpty_iff]
    intro h
    rw [h] at hwv
    exact absurd hwv (List.not_mem_nil _)
  rw [if_neg hne]
  apply genAllLoop_untouched
  · exact List.mem_map_of_mem _ hv
  · intro x hx heq
    have hx' : x ∈ images := List.mem_of_mem_filter hx
    have hxv : x = v := List.inj_on_of_nodup_map hnodup hx' hv heq
    have hxd := (List.mem_filter.mp hx).2
    rw [hxv, hdesc] at hxd
    simp at hxd

/-- C10 (witness): in the example batch, the description-less image `c`
ends the run with empty code and `isGenerating = true` even though it had
previously generated code. -/
theorem c10_undescribed_images_left_generating_witness :
    ({ id := lit "c", description := [], code := [],
       isGenerating := true } : ImageData) ∈ generateAllCodes exGen exImages :=
  c10_undescribed_images_left_generating exGen exImages (by decide)
    { id := lit "c", description := [], code := lit "old",
      isGenerating := false }
    (by decide) (by decide)
    { id := lit "b", description := lit "db", code := lit "old",
      isGenerating := false }
    (by decide) (by decide)

end Img2React
